import Mathlib

set_option autoImplicit false

/-!
Shallow embedding of the generation-orchestrator core of the `school`
backend (`src/backend/src/app`): the course lifecycle state machine
(`services/progression.py`), the background job tracker and event bus
(`services/generation_tracker.py`), the background generation pipeline
(`services/generation.py`), the assessment pipeline finalization
(`routers/assessments.py`) and the stream-endpoint timeout handlers
(`routers/courses.py`, `routers/assessments.py`).

Database rows become plain structures; ORM ids (uuid strings) become `Nat`;
the external LLM agent calls become an oracle record mapping the objective
index of each call site to its outcome (each call site runs at most once per
objective per run, so indexing the oracle by the objective index is faithful);
a Python exception becomes the `error` branch of `Except`, carrying the
internal exception text so that theorems can show that text never leaks into
published events.
-/

namespace School

/-- Embedding of the `Activity` ORM row (`db/models.py`): the fields the
orchestrator core reads. `id` is a uuid string in the source, modelled as
`Nat`. -/
structure Activity where
  id : Nat
  activity_spec : Option String
deriving Repr, DecidableEq

/-- Embedding of the `Lesson` ORM row (`db/models.py`): the fields the
orchestrator core reads, with the `activities` relationship inlined. -/
structure Lesson where
  objective_index : Nat
  lesson_content : Option String
  status : String
  activities : List Activity
deriving Repr, DecidableEq

/-- Embedding of the `Assessment` ORM row (`db/models.py`): the fields the
orchestrator core reads. -/
structure Assessment where
  id : Nat
  passed : Option Bool
  status : String
deriving Repr, DecidableEq

/-- Embedding of the `CourseInstance` ORM row (`db/models.py`) with the
`lessons` and `assessments` relationships inlined as loaded associations. -/
structure CourseInstance where
  status : String
  input_objectives : List String
  input_description : Option String
  generated_description : Option String
  lessons : List Lesson
  assessments : List Assessment
deriving Repr, DecidableEq

/-- Python truthiness of an optional string column: `None` and the empty
string are falsy, any other string is truthy. Used where the source tests a
nullable text column directly (for example `if existing.lesson_content:`). -/
def pyTruthyStr : Option String → Bool
  | none => false
  | some s => !(s == "")

/-- Embedding of `InvalidTransitionError` (`services/progression.py`). The
source raises one exception class with a formatted message; the two raise
sites are kept apart as constructors carrying the data the messages carry. -/
inductive InvalidTransitionError where
  | noEdge (fromStatus toStatus : String)
  | guardFailed (guard fromStatus toStatus : String)
deriving Repr, DecidableEq

/-- Embedding of the `TRANSITIONS` dict (`services/progression.py`, lines
13-21): valid transitions and their guard names, in source order. -/
def TRANSITIONS : List ((String × String) × String) :=
  [ (("draft", "generating"), "has_objectives"),
    (("generating", "active"), "all_content_generated"),
    (("active", "in_progress"), "always"),
    (("in_progress", "awaiting_assessment"), "all_lessons_completed"),
    (("awaiting_assessment", "assessment_ready"), "assessment_generated"),
    (("assessment_ready", "completed"), "assessment_passed"),
    (("assessment_ready", "assessment_ready"), "always") ]

/-- Embedding of `TRANSITIONS.get(key)`: dictionary lookup on the transition
table. -/
def TRANSITIONS_get (key : String × String) : Option String :=
  (TRANSITIONS.find? (fun p => p.1 == key)).map (fun p => p.2)

/-- Embedding of `check_guard` (`services/progression.py`). `bool(list)` in
Python is non-emptiness; `a.passed` on a nullable boolean column is truthy
only when it is `True`. -/
def check_guard (course : CourseInstance) (guard : String) : Bool :=
  if guard == "always" then true
  else if guard == "has_objectives" then !course.input_objectives.isEmpty
  else if guard == "all_content_generated" then
    decide (0 < course.lessons.length) &&
      course.lessons.all (fun lesson => lesson.lesson_content.isSome)
  else if guard == "all_lessons_completed" then
    decide (0 < course.lessons.length) &&
      course.lessons.all (fun lesson => lesson.status == "completed")
  else if guard == "assessment_generated" then
    decide (0 < course.assessments.length)
  else if guard == "assessment_passed" then
    course.assessments.any (fun a => a.passed.getD false)
  else false

/-- Embedding of `transition_course` (`services/progression.py`). The source
mutates `course.status` only after the edge lookup and the guard both
succeed, so on failure the course row is untouched; the pure embedding
returns the updated course on success and the raised error on failure. -/
def transition_course (course : CourseInstance) (target_status : String) :
    Except InvalidTransitionError CourseInstance :=
  match TRANSITIONS_get (course.status, target_status) with
  | none => .error (.noEdge course.status target_status)
  | some guard_name =>
      if check_guard course guard_name then
        .ok { course with status := target_status }
      else
        .error (.guardFailed guard_name course.status target_status)

/-! ## Job registry (`services/generation_tracker.py`) -/

/-- A tracked `asyncio.Task`: the handle stored in `_active_tasks`, reduced to
the identity of the spawned coroutine and its done flag (the only thing the
tracker ever queries on it). -/
structure GenTask where
  taskId : Nat
  done : Bool
deriving Repr, DecidableEq

/-- The `_active_tasks` module-level dict: resource key to tracked task. -/
def TaskMap : Type := String → Option GenTask

/-- Embedding of `start_generation` (`services/generation_tracker.py`, lines
17-27): raise `RuntimeError` when the key maps to a live task, otherwise
spawn a fresh (not yet done) task, store it under the key (replacing any
stale done entry) and return it. `newTaskId` models the identity of the
coroutine handed to `asyncio.create_task`. -/
def start_generation (tasks : TaskMap) (course_id : String) (newTaskId : Nat) :
    Except String (TaskMap × GenTask) :=
  if (match tasks course_id with
      | some t => !t.done
      | none => false) then
    .error ("Generation already running for course " ++ course_id)
  else
    let task : GenTask := { taskId := newTaskId, done := false }
    .ok (fun k => if k == course_id then some task else tasks k, task)

/-- Embedding of `is_running` (`services/generation_tracker.py`, lines
56-59). -/
def is_running (tasks : TaskMap) (course_id : String) : Bool :=
  match tasks course_id with
  | some task => !task.done
  | none => false

/-- Embedding of `cleanup` (`services/generation_tracker.py`, lines 62-66):
drop the registry entry; subscriber queues are left alone. -/
def cleanup (tasks : TaskMap) (course_id : String) : TaskMap :=
  fun k => if k == course_id then none else tasks k

/-- Runtime event, not a tracker function: the asyncio event loop marks the
task stored under `course_id` as done when its coroutine finishes for any
reason. The tracker then runs the done callback `cleanup course_id`. -/
def finishTask (tasks : TaskMap) (course_id : String) : TaskMap :=
  fun k =>
    if k == course_id then (tasks k).map (fun t => { t with done := true })
    else tasks k

/-! ## Event bus (`services/generation_tracker.py`) -/

/-- A broadcast message: `{"event": event, "data": data or {}}`, with the
payload dict modelled as a key-value list. -/
structure BusMessage where
  event : String
  data : List (String × String)
deriving Repr, DecidableEq

/-- An `asyncio.Queue`: its `maxsize` argument and current items. Per the
asyncio semantics, `maxsize = 0` (the constructor default) means the queue
size is infinite and `full()` never returns true. -/
structure EventQueue where
  maxsize : Nat
  items : List BusMessage
deriving Repr, DecidableEq

/-- The claim notion of a bounded mailbox for an `asyncio.Queue`: the queue
was constructed with a positive `maxsize`, so `full()` can become true and
`put_nowait` can reject. A queue with `maxsize = 0` is infinite. -/
def isBounded (q : EventQueue) : Prop := 0 < q.maxsize

/-- `asyncio.Queue.full()`: true when the queue holds at least `maxsize`
items and `maxsize` is positive. -/
def queueFull (q : EventQueue) : Bool :=
  decide (0 < q.maxsize) && decide (q.maxsize ≤ q.items.length)

/-- `asyncio.Queue.put_nowait(msg)`: raise `QueueFull` when full, else append
the message. -/
def put_nowait (q : EventQueue) (msg : BusMessage) : Except Unit EventQueue :=
  if queueFull q then .error () else .ok { q with items := q.items ++ [msg] }

/-- The `_subscribers` module-level dict: resource key to list of subscriber
queues, in subscription order. A key that was never subscribed maps to the
empty list (`_subscribers.get(course_id, [])`). -/
def Subscribers : Type := String → List EventQueue

/-- Embedding of `subscribe` (`services/generation_tracker.py`, lines 30-34):
create a fresh `asyncio.Queue()` — constructor default, so `maxsize = 0` —
append it to the list for the key, and return it. -/
def subscribe (subs : Subscribers) (course_id : String) :
    Subscribers × EventQueue :=
  let queue : EventQueue := { maxsize := 0, items := [] }
  (fun k => if k == course_id then subs course_id ++ [queue] else subs k,
   queue)

/-- Embedding of `broadcast` (`services/generation_tracker.py`, lines 46-53):
build the message once and `put_nowait` it onto every queue registered for
the key; a `QueueFull` on one queue only logs a warning and leaves that
queue unchanged, the remaining queues are still served. -/
def broadcast (subs : Subscribers) (course_id : String) (event : String)
    (data : List (String × String)) : Subscribers :=
  let message : BusMessage := { event := event, data := data }
  fun k =>
    if k == course_id then
      (subs course_id).map (fun queue =>
        match put_nowait queue message with
        | .ok q2 => q2
        | .error _ => queue)
    else subs k

/-- Embedding of `unsubscribe` (`services/generation_tracker.py`, lines
37-43): remove the first occurrence of the queue from the list for the key.
The source additionally drops the dict entry when the list becomes empty;
with absent keys modelled as the empty list that step is the identity. -/
def unsubscribe (subs : Subscribers) (course_id : String) (queue : EventQueue) :
    Subscribers :=
  fun k => if k == course_id then (subs course_id).erase queue else subs k

/-! ## Background generation pipeline (`services/generation.py`) -/

/-- The SSE events the background pipeline broadcasts
(`generate_course_background`). A payload key that the source omits for a
real (non-skipped) event is modelled as `skipped := false`; `lesson_title`
is `none` where the source sends `None`; the fatal error event uses
objective index `-1`, so the index field of `generation_error` is an `Int`. -/
inductive GenEvent where
  | lesson_planned (objective_index : Nat) (lesson_title : Option String) (skipped : Bool)
  | lesson_written (objective_index : Nat) (skipped : Bool)
  | activity_created (objective_index : Nat) (activity_id : Nat) (skipped : Bool)
  | generation_error (objective_index : Int) (error : String)
  | generation_complete (course_id : String) (lesson_count : Nat)
deriving Repr, DecidableEq

/-- The three external LLM agent calls the pipeline can perform for an
objective index (`run_lesson_planner`, `run_lesson_writer`,
`run_activity_creator`). -/
inductive AgentCall where
  | planLesson (objective_index : Nat)
  | writeLesson (objective_index : Nat)
  | createActivity (objective_index : Nat)
deriving Repr, DecidableEq

/-- One observable step of a pipeline run, in program order: a broadcast to
the event bus, an external agent call being issued, or a `db.commit` that
makes the course row durable with the given status. -/
inductive TraceItem where
  | evt (e : GenEvent)
  | agentCall (c : AgentCall)
  | commitStatus (status : String)
deriving Repr, DecidableEq

/-- The fields of the lesson planner output that the pipeline reads
(`agents/lesson_planner.py` result model). -/
structure LessonPlan where
  lesson_title : String
  suggested_activity : String
  mastery_criteria : String
deriving Repr, DecidableEq

/-- Oracle for the external content-generation calls, the out-of-scope
collaborators of the pipeline. Each call site runs at most once per
objective index per run, so the outcome of each call is indexed by the
objective index it is invoked for. A failure carries the internal exception
text, so that theorems can state that this text never reaches a published
event. -/
structure AgentOracle where
  runLessonPlanner : Nat → Except String LessonPlan
  runLessonWriter : Nat → Except String String
  runActivityCreator : Nat → Except String String

/-- The mutable state of one run of `generate_course_background` inside its
background session: the loaded course row (in-memory, session-local), the
committed lesson rows of the course, the committed value of the course
status column, the observable trace so far, the success counter and the
next fresh activity id (modelling uuid generation). -/
structure PipelineState where
  course : CourseInstance
  db_lessons : List Lesson
  committed_status : String
  trace : List TraceItem
  lessons_created : Nat
  nextActivityId : Nat
deriving Repr, DecidableEq

/-- Append one observable step to the trace. -/
def pushItem (st : PipelineState) (item : TraceItem) : PipelineState :=
  { st with trace := st.trace ++ [item] }

/-- Broadcast an event (the pipeline side of `broadcast`: the fan-out to
subscriber queues is modelled separately by `School.broadcast`). -/
def pushEvent (st : PipelineState) (e : GenEvent) : PipelineState :=
  pushItem st (.evt e)

/-- A `db.commit()` inside the background session: all flushed rows become
durable; the course status column is durable at its current in-memory
value. -/
def commitSession (st : PipelineState) : PipelineState :=
  { st with committed_status := st.course.status,
            trace := st.trace ++ [.commitStatus st.course.status] }

/-- The `existing_lessons` index of `generate_course_background` (line 113):
dictionary access by objective index. The objective index is unique per
course (data-model invariant), so the first match is the entry. -/
def lookupLesson (lessons : List Lesson) (i : Nat) : Option Lesson :=
  lessons.find? (fun l => l.objective_index == i)

/-- Update the lesson row with the given objective index (unique per
course). -/
def updateLessonAt (lessons : List Lesson) (i : Nat) (f : Lesson → Lesson) :
    List Lesson :=
  lessons.map (fun l => if l.objective_index == i then f l else l)

/-- The generic per-objective error message of line 208: a function of the
index only, never of the caught exception. -/
def objectiveErrorMsg (i : Nat) : String :=
  "Failed to generate lesson for objective " ++ toString i

/-- The inner try of the per-objective loop body
(`generate_course_background`, lines 141-209): plan, then write (re-using an
existing lesson row that already has truthy content, filling in a contentless
existing row, or creating a fresh row), then create the activity unless the
existing row already has one, broadcasting progress after each phase and
committing after each persisted row. Any oracle failure falls to the except
branch, which discards the internal exception text and broadcasts only the
generic per-objective message. -/
def objectiveTry (oracle : AgentOracle) (existing : Option Lesson) (i : Nat)
    (st : PipelineState) : PipelineState :=
  let fail := fun (st2 : PipelineState) =>
    pushEvent st2 (.generation_error (Int.ofNat i) (objectiveErrorMsg i))
  -- 1. Plan the lesson
  let st := pushItem st (.agentCall (.planLesson i))
  match oracle.runLessonPlanner i with
  | .error _ => fail st
  | .ok plan =>
    let st := pushEvent st (.lesson_planned i (some plan.lesson_title) false)
    -- 2. Write the lesson content (re-use the existing record if it has content)
    let writeCall := fun (st2 : PipelineState) =>
      let st2 := pushItem st2 (.agentCall (.writeLesson i))
      match oracle.runLessonWriter i with
      | .error _ => Except.error st2
      | .ok body =>
        match existing with
        | some ex =>
          -- lesson record exists but has no (truthy) content: update it
          let lesson := { ex with lesson_content := some body }
          let st2 := { st2 with
            db_lessons := updateLessonAt st2.db_lessons i
              (fun l => { l with lesson_content := some body }) }
          Except.ok (commitSession st2, lesson)
        | none =>
          let lesson : Lesson :=
            { objective_index := i, lesson_content := some body,
              status := if i == 0 then "unlocked" else "locked",
              activities := [] }
          let st2 := { st2 with db_lessons := st2.db_lessons ++ [lesson] }
          Except.ok (commitSession st2, lesson)
    let contentResult : Except PipelineState (PipelineState × Lesson) :=
      match existing with
      | some ex =>
        if pyTruthyStr ex.lesson_content then .ok (st, ex) else writeCall st
      | none => writeCall st
    match contentResult with
    | .error stFail => fail stFail
    | .ok (st, _lesson) =>
      let st := pushEvent st (.lesson_written i false)
      -- 3. Create the activity (only if the lesson does not already have one)
      let createCall := fun (st2 : PipelineState) =>
        let st2 := pushItem st2 (.agentCall (.createActivity i))
        match oracle.runActivityCreator i with
        | .error _ => Except.error st2
        | .ok spec =>
          let activity : Activity :=
            { id := st2.nextActivityId, activity_spec := some spec }
          let st2 := { st2 with
            db_lessons := updateLessonAt st2.db_lessons i
              (fun l => { l with activities := l.activities ++ [activity] }),
            nextActivityId := st2.nextActivityId + 1 }
          Except.ok (commitSession st2, activity.id)
      let activityResult : Except PipelineState (PipelineState × Nat) :=
        match existing with
        | some ex =>
          if ex.activities.isEmpty then createCall st
          else .ok (st, (match ex.activities with | a :: _ => a.id | [] => 0))
        | none => createCall st
      match activityResult with
      | .error stFail => fail stFail
      | .ok (st, activity_id) =>
        let st := pushEvent st (.activity_created i activity_id false)
        { st with lessons_created := st.lessons_created + 1 }

/-- One iteration of the per-objective loop of `generate_course_background`
(lines 117-210): the already-done skip (truthy content and a non-empty
activity list), otherwise the inner try. The skip broadcasts the three
progress events marked skipped, performs no agent call, and counts the
objective as a success. -/
def objectiveStep (oracle : AgentOracle) (existing_lessons : List Lesson)
    (i : Nat) (st : PipelineState) : PipelineState :=
  match lookupLesson existing_lessons i with
  | some ex =>
    if pyTruthyStr ex.lesson_content && !ex.activities.isEmpty then
      let st := pushEvent st (.lesson_planned i none true)
      let st := pushEvent st (.lesson_written i true)
      let aid := (match ex.activities with | a :: _ => a.id | [] => 0)
      let st := pushEvent st (.activity_created i aid true)
      { st with lessons_created := st.lessons_created + 1 }
    else objectiveTry oracle (some ex) i st
  | none => objectiveTry oracle none i st

/-- Insert a lesson into a list sorted by objective index. -/
def insertLesson (l : Lesson) : List Lesson → List Lesson
  | [] => [l]
  | x :: xs =>
    if l.objective_index ≤ x.objective_index then l :: x :: xs
    else x :: insertLesson l xs

/-- The order of the `lessons` relationship
(`order_by="Lesson.objective_index"`): the committed rows sorted by
objective index, as `db.refresh(course, ["lessons"])` reloads them. -/
def sortLessons : List Lesson → List Lesson
  | [] => []
  | x :: xs => insertLesson x (sortLessons xs)

/-- Lines 212-221 of `generate_course_background`: set the generated
description; with at least one success, refresh the lessons relationship
from the committed rows and transition generating → active → in_progress;
with zero successes, transition to generation_failed. A raised
`InvalidTransitionError` escapes the session (rolling back the uncommitted
course-row changes) into the fatal handler. -/
def finalizeCourse (description : String) (st : PipelineState) :
    Except InvalidTransitionError PipelineState :=
  let course := { st.course with generated_description := some description }
  if 0 < st.lessons_created then
    let course := { course with lessons := sortLessons st.db_lessons }
    match transition_course course "active" with
    | .error e => .error e
    | .ok c2 =>
      match transition_course c2 "in_progress" with
      | .error e => .error e
      | .ok c3 => .ok { st with course := c3 }
  else
    match transition_course course "generation_failed" with
    | .error e => .error e
    | .ok c2 => .ok { st with course := c2 }

/-- The outcome of a whole pipeline run: the observable trace, the committed
lesson rows, the committed course status (none when no course row exists)
and the final success counter. -/
structure RunResult where
  trace : List TraceItem
  db_lessons : List Lesson
  committed_status : Option String
  lessons_created : Nat
deriving Repr, DecidableEq

/-- Lines 230-253 of `generate_course_background`: the fatal path. A fresh
session reloads the course from committed state; if it is still generating,
the handler tries to mark it failed — a transition failure inside that
session rolls the session back and is swallowed by the inner except — and
then the error and complete events are broadcast. -/
def fatalHandler (course_id : String) (committedCourse : Option CourseInstance)
    (trace : List TraceItem) (db_lessons : List Lesson)
    (committed_status : Option String) (lessons_created : Nat) : RunResult :=
  let rollback : List TraceItem × Option String :=
    match committedCourse with
    | some c =>
      if c.status == "generating" then
        match transition_course c "generation_failed" with
        | .ok c2 => (trace ++ [.commitStatus c2.status], some c2.status)
        | .error _ => (trace, committed_status)
      else (trace, committed_status)
    | none => (trace, committed_status)
  let trace2 := rollback.1 ++
    [ .evt (.generation_error (-1) "Fatal generation error"),
      .evt (.generation_complete course_id lessons_created) ]
  { trace := trace2, db_lessons := db_lessons,
    committed_status := rollback.2, lessons_created := lessons_created }

/-- Embedding of `generate_course_background` (`services/generation.py`,
lines 76-253). `loadedCourse` is the committed course row the background
session loads (`none` models `scalar_one` raising because the row is
absent); `firstActivityId` models the first fresh uuid handed out for a new
activity row. The loop walks the objective indices in order; afterwards the
course is finalized, the session exit commits, and the complete event is
broadcast after that commit. A fatal error instead runs the fatal handler,
which still broadcasts the error and complete events. -/
def generate_course_background (oracle : AgentOracle) (course_id : String)
    (objectives : List String) (description : String)
    (loadedCourse : Option CourseInstance) (firstActivityId : Nat) : RunResult :=
  match loadedCourse with
  | none =>
    -- result.scalar_one() raises: fatal before any progress; the reload in
    -- the handler finds no row either, so no rollback is attempted
    fatalHandler course_id none [] [] none 0
  | some c =>
    let st0 : PipelineState :=
      { course := c, db_lessons := c.lessons, committed_status := c.status,
        trace := [], lessons_created := 0, nextActivityId := firstActivityId }
    let st1 := (List.range objectives.length).foldl
      (fun st i => objectiveStep oracle c.lessons i st) st0
    match finalizeCourse description st1 with
    | .ok st2 =>
      -- the async-with exit commits, then the complete event is broadcast
      let st3 := commitSession st2
      let st4 := pushEvent st3 (.generation_complete course_id st3.lessons_created)
      { trace := st4.trace, db_lessons := st4.db_lessons,
        committed_status := some st4.committed_status,
        lessons_created := st4.lessons_created }
    | .error _ =>
      -- the exception escapes the session: uncommitted changes are rolled
      -- back; the handler reloads the course as committed
      fatalHandler course_id
        (some { c with status := st1.committed_status, lessons := st1.db_lessons })
        st1.trace st1.db_lessons (some st1.committed_status) st1.lessons_created

/-- The broadcast events of a trace, in order. -/
def traceEvents (t : List TraceItem) : List GenEvent :=
  t.filterMap (fun item => match item with | .evt e => some e | _ => none)

/-- The agent calls of a trace, in order. -/
def traceCalls (t : List TraceItem) : List AgentCall :=
  t.filterMap (fun item => match item with | .agentCall c => some c | _ => none)

/-- Whether a trace item is a commit. -/
def isCommitItem : TraceItem → Bool
  | .commitStatus _ => true
  | _ => false

/-- The objective index an event is scoped to (`objective_index` payload
field); the complete event carries none. -/
def eventIndex : GenEvent → Option Int
  | .lesson_planned i _ _ => some (Int.ofNat i)
  | .lesson_written i _ => some (Int.ofNat i)
  | .activity_created i _ _ => some (Int.ofNat i)
  | .generation_error i _ => some i
  | .generation_complete _ _ => none

/-- The objective index an agent call is issued for. -/
def callIndex : AgentCall → Nat
  | .planLesson i => i
  | .writeLesson i => i
  | .createActivity i => i

/-- The events of a trace scoped to one objective index, in order. -/
def eventsForIndex (t : List TraceItem) (i : Nat) : List GenEvent :=
  (traceEvents t).filter (fun e => eventIndex e == some (Int.ofNat i))

/-- The agent calls of a trace issued for one objective index, in order. -/
def callsForIndex (t : List TraceItem) (i : Nat) : List AgentCall :=
  (traceCalls t).filter (fun c => callIndex c == i)

/-- Whether a call outcome is a success. -/
def exceptOk {ε α : Type} : Except ε α → Bool
  | .ok _ => true
  | .error _ => false

/-- Whether the inner try of iteration i runs to the end: the plan call
succeeds, the content phase succeeds (already-truthy existing content or a
successful write call) and the activity phase succeeds (already-existing
activity or a successful create call). -/
def tryOk (oracle : AgentOracle) (existing : Option Lesson) (i : Nat) : Bool :=
  exceptOk (oracle.runLessonPlanner i) &&
  ((match existing with
    | some ex => pyTruthyStr ex.lesson_content
    | none => false) ||
    exceptOk (oracle.runLessonWriter i)) &&
  ((match existing with
    | some ex => !ex.activities.isEmpty
    | none => false) ||
    exceptOk (oracle.runActivityCreator i))

/-- Whether iteration i of the loop increments the success counter: either
the already-done skip fires, or the inner try runs to the end. Mirrors the
control flow of `objectiveStep`. -/
def objectiveSucceeds (oracle : AgentOracle) (existing_lessons : List Lesson)
    (i : Nat) : Bool :=
  match lookupLesson existing_lessons i with
  | some ex =>
    if pyTruthyStr ex.lesson_content && !ex.activities.isEmpty then true
    else tryOk oracle (some ex) i
  | none => tryOk oracle none i

/-- The per-objective loop of `generate_course_background` (lines 117-210)
over an explicit list of objective indices: the body of
`for i, objective in enumerate(objectives)` is `objectiveStep` and the
index list is `List.range objectives.length`. -/
def runLoop (oracle : AgentOracle) (exl : List Lesson) (S : List Nat)
    (st : PipelineState) : PipelineState :=
  S.foldl (fun st i => objectiveStep oracle exl i st) st

/-- The pipeline state right after the background session loaded the course
row (lines 92-115): the committed lessons are the loaded relationship, the
committed status is the loaded status, nothing has been broadcast. -/
def initState (c : CourseInstance) (firstActivityId : Nat) : PipelineState :=
  { course := c, db_lessons := c.lessons, committed_status := c.status,
    trace := [], lessons_created := 0, nextActivityId := firstActivityId }

/-! ## Assessment pipeline finalization (`routers/assessments.py`) -/

/-- Embedding of the persistence and transition tail of
`generate_assessment_background` (`routers/assessments.py`, lines 71-92): the
assessment row is added, flushed and committed, the assessments relationship
is refreshed so the transition guard sees the new row, and then the
transition to assessment_ready is attempted with a raised
`InvalidTransitionError` swallowed (the retry case in the source comment). -/
def assessment_finalize (course : CourseInstance) (newAssessment : Assessment) :
    CourseInstance :=
  let course2 :=
    { course with assessments := course.assessments ++ [newAssessment] }
  match transition_course course2 "assessment_ready" with
  | .ok c => c
  | .error _ => course2

/-! ## Stream endpoint timeout handlers (`routers/courses.py`, `routers/assessments.py`) -/

/-- What one pass of the generation-stream live loop yields on a bus
timeout. -/
inductive StreamYield where
  | generationComplete (course_id : String) (lesson_count : Nat)
  | keepalive
deriving Repr, DecidableEq

/-- Embedding of the `asyncio.TimeoutError` branch of the live loop of
`generation_stream` (`routers/courses.py`, lines 154-167). `dbLessonsNow`
is the set of lesson rows persisted for the course at this moment: the
session is in scope in the generator but this branch does not query it
again — the emitted `lesson_count` is the length of `existing_lessons`, the
snapshot read when the client connected. -/
def generation_stream_on_timeout (course_id : String)
    (existing_lessons : List Lesson) (dbLessonsNow : List Lesson)
    (running : Bool) : StreamYield :=
  if !running then
    .generationComplete course_id existing_lessons.length
  else
    .keepalive

/-- What one pass of the assessment-stream live loop yields on a bus
timeout. -/
inductive AssessStreamYield where
  | assessmentComplete (assessment_id : Nat)
  | assessmentError (error : String)
  | keepalive
deriving Repr, DecidableEq

/-- The query `select(Assessment).order_by(Assessment.id.desc()).limit(1)`:
the persisted assessment with the greatest id. -/
def latestAssessment : List Assessment → Option Assessment
  | [] => none
  | a :: rest =>
    match latestAssessment rest with
    | none => some a
    | some b => if b.id ≤ a.id then some a else some b

/-- Embedding of the `asyncio.TimeoutError` branch of the live loop of
`assessment_stream` (`routers/assessments.py`, lines 292-316): when the job
is no longer running, the handler expires the session cache and re-queries
the latest persisted assessment, emitting the terminal event from that
re-read. -/
def assessment_stream_on_timeout (dbAssessmentsNow : List Assessment)
    (running : Bool) : AssessStreamYield :=
  if !running then
    match latestAssessment dbAssessmentsNow with
    | some latest => .assessmentComplete latest.id
    | none => .assessmentError "Assessment generation ended without result"
  else
    .keepalive

/-! ## Concrete fixtures used by counterexamples and witnesses -/

/-- An oracle in which every external call fails, each with internal
exception detail that must never surface in a published event. -/
def oracleAllFail : AgentOracle :=
  { runLessonPlanner := fun _ => .error "internal planner detail",
    runLessonWriter := fun _ => .error "internal writer detail",
    runActivityCreator := fun _ => .error "internal creator detail" }

/-- A deterministic successful plan for objective index i. -/
def planOk (i : Nat) : LessonPlan :=
  { lesson_title := "Title " ++ toString i, suggested_activity := "act",
    mastery_criteria := "crit" }

/-- An oracle in which every external call succeeds. -/
def oracleAllOk : AgentOracle :=
  { runLessonPlanner := fun i => .ok (planOk i),
    runLessonWriter := fun i => .ok ("body " ++ toString i),
    runActivityCreator := fun i => .ok ("spec " ++ toString i) }

/-- An oracle in which only the write call for objective index 0 fails. -/
def oracleWriteFails0 : AgentOracle :=
  { runLessonPlanner := fun i => .ok (planOk i),
    runLessonWriter := fun i =>
      if i == 0 then .error "internal writer detail" else .ok ("body " ++ toString i),
    runActivityCreator := fun i => .ok ("spec " ++ toString i) }

/-- A course in status generating with no lessons yet: the committed state
right after the generate endpoint accepted a draft course. -/
def courseGen0 : CourseInstance :=
  { status := "generating", input_objectives := ["obj A"],
    input_description := some "desc", generated_description := none,
    lessons := [], assessments := [] }

/-- A lesson row whose content is non-null but the empty string, with an
activity attached. -/
def lessonEmptyContent : Lesson :=
  { objective_index := 0, lesson_content := some "", status := "unlocked",
    activities := [{ id := 7, activity_spec := some "spec" }] }

/-- A generating course whose lesson 0 has non-null (but empty-string)
content and an activity. -/
def courseEmptyContent : CourseInstance :=
  { status := "generating", input_objectives := ["obj A"],
    input_description := some "desc", generated_description := none,
    lessons := [lessonEmptyContent], assessments := [] }

/-- A course stuck in status generating_assessment (the status the
assessment endpoint moves a course to before spawning the background
task). -/
def courseGeneratingAssessment : CourseInstance :=
  { status := "generating_assessment", input_objectives := ["obj A"],
    input_description := some "desc", generated_description := none,
    lessons := [], assessments := [] }

/-- A persisted lesson row fixture. -/
def lessonRow (i : Nat) : Lesson :=
  { objective_index := i, lesson_content := some ("body " ++ toString i),
    status := "locked", activities := [] }

/-- A generated lesson row with content and no activity yet. -/
def lessonDone0 : Lesson :=
  { objective_index := 0, lesson_content := some "body",
    status := "unlocked", activities := [] }

/-- A generating course with one fully written lesson. -/
def courseOneLessonDone : CourseInstance :=
  { status := "generating", input_objectives := ["obj A"],
    input_description := some "desc", generated_description := none,
    lessons := [lessonDone0], assessments := [] }

/-- A lesson row that is completely done: truthy content plus an
activity. -/
def lessonDoneWithActivity : Lesson :=
  { objective_index := 0, lesson_content := some "body",
    status := "unlocked",
    activities := [{ id := 7, activity_spec := some "spec" }] }

/-- A generating course in a retry scenario: objective 0 fully done,
objective 1 untouched. -/
def courseRerun : CourseInstance :=
  { status := "generating", input_objectives := ["obj A", "obj B"],
    input_description := some "desc", generated_description := none,
    lessons := [lessonDoneWithActivity], assessments := [] }

/-- A registry whose only entry for the key is a finished task whose done
callback has not fired yet. -/
def regDone : TaskMap :=
  fun k => if k == "c1" then some { taskId := 7, done := true } else none

/-- A bus message fixture. -/
def msgA : BusMessage := { event := "e", data := [] }

/-- The fresh lesson row created for objective index i with the written
body (line 164 of `services/generation.py`). -/
def freshLesson (i : Nat) (body : String) : Lesson :=
  { objective_index := i, lesson_content := some body,
    status := if i == 0 then "unlocked" else "locked", activities := [] }

/-! ## Per-iteration reduction lemmas for the pipeline loop -/

/-- Iteration reduction: failing plan call. -/
theorem objectiveTry_plan_fail (oracle : AgentOracle) (existing : Option Lesson)
    (i : Nat) (st : PipelineState) (s : String)
    (hplan : oracle.runLessonPlanner i = .error s) :
    objectiveTry oracle existing i st
      = { st with trace := st.trace ++
            [.agentCall (.planLesson i),
             .evt (.generation_error (Int.ofNat i) (objectiveErrorMsg i))] } := by
  simp [objectiveTry, hplan, pushEvent, pushItem]

/-- Iteration reduction: existing content is truthy and an activity exists,
inside the try (reachable only when the already-done skip did not fire, so
in fact unreachable together; stated unconditionally for completeness of
the case analysis). -/
theorem objectiveTry_content_skip_have_activity (oracle : AgentOracle) (i : Nat)
    (st : PipelineState) (ex : Lesson) (plan : LessonPlan) (a : Activity)
    (rest : List Activity)
    (hplan : oracle.runLessonPlanner i = .ok plan)
    (hcontent : pyTruthyStr ex.lesson_content = true)
    (hacts : ex.activities = a :: rest) :
    objectiveTry oracle (some ex) i st
      = { st with
          trace := st.trace ++
            [.agentCall (.planLesson i),
             .evt (.lesson_planned i (some plan.lesson_title) false),
             .evt (.lesson_written i false),
             .evt (.activity_created i a.id false)],
          lessons_created := st.lessons_created + 1 } := by
  simp [objectiveTry, hplan, hcontent, hacts, pushEvent, pushItem]

/-- Iteration reduction: existing content is truthy, no activity yet, create
call fails. -/
theorem objectiveTry_content_skip_create_fail (oracle : AgentOracle) (i : Nat)
    (st : PipelineState) (ex : Lesson) (plan : LessonPlan) (s : String)
    (hplan : oracle.runLessonPlanner i = .ok plan)
    (hcontent : pyTruthyStr ex.lesson_content = true)
    (hacts : ex.activities = [])
    (hact : oracle.runActivityCreator i = .error s) :
    objectiveTry oracle (some ex) i st
      = { st with trace := st.trace ++
            [.agentCall (.planLesson i),
             .evt (.lesson_planned i (some plan.lesson_title) false),
             .evt (.lesson_written i false),
             .agentCall (.createActivity i),
             .evt (.generation_error (Int.ofNat i) (objectiveErrorMsg i))] } := by
  simp [objectiveTry, hplan, hcontent, hacts, hact, pushEvent, pushItem]

/-- Iteration reduction: existing content is truthy, no activity yet, create
call succeeds. -/
theorem objectiveTry_content_skip_create_ok (oracle : AgentOracle) (i : Nat)
    (st : PipelineState) (ex : Lesson) (plan : LessonPlan) (spec : String)
    (hplan : oracle.runLessonPlanner i = .ok plan)
    (hcontent : pyTruthyStr ex.lesson_content = true)
    (hacts : ex.activities = [])
    (hact : oracle.runActivityCreator i = .ok spec) :
    objectiveTry oracle (some ex) i st
      = { st with
          trace := st.trace ++
            [.agentCall (.planLesson i),
             .evt (.lesson_planned i (some plan.lesson_title) false),
             .evt (.lesson_written i false),
             .agentCall (.createActivity i),
             .commitStatus st.course.status,
             .evt (.activity_created i st.nextActivityId false)],
          db_lessons := updateLessonAt st.db_lessons i
            (fun l => { l with activities := l.activities ++
              [{ id := st.nextActivityId, activity_spec := some spec }] }),
          committed_status := st.course.status,
          nextActivityId := st.nextActivityId + 1,
          lessons_created := st.lessons_created + 1 } := by
  simp [objectiveTry, hplan, hcontent, hacts, hact, pushEvent, pushItem,
    commitSession]

/-- Iteration reduction: existing row without truthy content, write call
fails. -/
theorem objectiveTry_write_fail_existing (oracle : AgentOracle) (i : Nat)
    (st : PipelineState) (ex : Lesson) (plan : LessonPlan) (s : String)
    (hplan : oracle.runLessonPlanner i = .ok plan)
    (hcontent : pyTruthyStr ex.lesson_content = false)
    (hwrite : oracle.runLessonWriter i = .error s) :
    objectiveTry oracle (some ex) i st
      = { st with trace := st.trace ++
            [.agentCall (.planLesson i),
             .evt (.lesson_planned i (some plan.lesson_title) false),
             .agentCall (.writeLesson i),
             .evt (.generation_error (Int.ofNat i) (objectiveErrorMsg i))] } := by
  simp [objectiveTry, hplan, hcontent, hwrite, pushEvent, pushItem]

/-- Iteration reduction: existing row without truthy content, write call
succeeds, an activity already exists. -/
theorem objectiveTry_write_ok_existing_have_activity (oracle : AgentOracle)
    (i : Nat) (st : PipelineState) (ex : Lesson) (plan : LessonPlan)
    (body : String) (a : Activity) (rest : List Activity)
    (hplan : oracle.runLessonPlanner i = .ok plan)
    (hcontent : pyTruthyStr ex.lesson_content = false)
    (hwrite : oracle.runLessonWriter i = .ok body)
    (hacts : ex.activities = a :: rest) :
    objectiveTry oracle (some ex) i st
      = { st with
          trace := st.trace ++
            [.agentCall (.planLesson i),
             .evt (.lesson_planned i (some plan.lesson_title) false),
             .agentCall (.writeLesson i),
             .commitStatus st.course.status,
             .evt (.lesson_written i false),
             .evt (.activity_created i a.id false)],
          db_lessons := updateLessonAt st.db_lessons i
            (fun l => { l with lesson_content := some body }),
          committed_status := st.course.status,
          lessons_created := st.lessons_created + 1 } := by
  simp [objectiveTry, hplan, hcontent, hwrite, hacts, pushEvent, pushItem,
    commitSession]

/-- Iteration reduction: existing row without truthy content, write call
succeeds, no activity yet, create call fails. -/
theorem objectiveTry_write_ok_existing_create_fail (oracle : AgentOracle)
    (i : Nat) (st : PipelineState) (ex : Lesson) (plan : LessonPlan)
    (body : String) (s : String)
    (hplan : oracle.runLessonPlanner i = .ok plan)
    (hcontent : pyTruthyStr ex.lesson_content = false)
    (hwrite : oracle.runLessonWriter i = .ok body)
    (hacts : ex.activities = [])
    (hact : oracle.runActivityCreator i = .error s) :
    objectiveTry oracle (some ex) i st
      = { st with
          trace := st.trace ++
            [.agentCall (.planLesson i),
             .evt (.lesson_planned i (some plan.lesson_title) false),
             .agentCall (.writeLesson i),
             .commitStatus st.course.status,
             .evt (.lesson_written i false),
             .agentCall (.createActivity i),
             .evt (.generation_error (Int.ofNat i) (objectiveErrorMsg i))],
          db_lessons := updateLessonAt st.db_lessons i
            (fun l => { l with lesson_content := some body }),
          committed_status := st.course.status } := by
  simp [objectiveTry, hplan, hcontent, hwrite, hacts, hact, pushEvent,
    pushItem, commitSession]

/-- Iteration reduction: existing row without truthy content, write call
succeeds, no activity yet, create call succeeds. -/
theorem objectiveTry_write_ok_existing_create_ok (oracle : AgentOracle)
    (i : Nat) (st : PipelineState) (ex : Lesson) (plan : LessonPlan)
    (body : String) (spec : String)
    (hplan : oracle.runLessonPlanner i = .ok plan)
    (hcontent : pyTruthyStr ex.lesson_content = false)
    (hwrite : oracle.runLessonWriter i = .ok body)
    (hacts : ex.activities = [])
    (hact : oracle.runActivityCreator i = .ok spec) :
    objectiveTry oracle (some ex) i st
      = { st with
          trace := st.trace ++
            [.agentCall (.planLesson i),
             .evt (.lesson_planned i (some plan.lesson_title) false),
             .agentCall (.writeLesson i),
             .commitStatus st.course.status,
             .evt (.lesson_written i false),
             .agentCall (.createActivity i),
             .commitStatus st.course.status,
             .evt (.activity_created i st.nextActivityId false)],
          db_lessons := updateLessonAt
            (updateLessonAt st.db_lessons i
              (fun l => { l with lesson_content := some body })) i
            (fun l => { l with activities := l.activities ++
              [{ id := st.nextActivityId, activity_spec := some spec }] }),
          committed_status := st.course.status,
          nextActivityId := st.nextActivityId + 1,
          lessons_created := st.lessons_created + 1 } := by
  simp [objectiveTry, hplan, hcontent, hwrite, hacts, hact, pushEvent,
    pushItem, commitSession]

/-- Iteration reduction: no existing row, write call fails. -/
theorem objectiveTry_write_fail_fresh (oracle : AgentOracle) (i : Nat)
    (st : PipelineState) (plan : LessonPlan) (s : String)
    (hplan : oracle.runLessonPlanner i = .ok plan)
    (hwrite : oracle.runLessonWriter i = .error s) :
    objectiveTry oracle none i st
      = { st with trace := st.trace ++
            [.agentCall (.planLesson i),
             .evt (.lesson_planned i (some plan.lesson_title) false),
             .agentCall (.writeLesson i),
             .evt (.generation_error (Int.ofNat i) (objectiveErrorMsg i))] } := by
  simp [objectiveTry, hplan, hwrite, pushEvent, pushItem]

/-- Iteration reduction: no existing row, write call succeeds, create call
fails. -/
theorem objectiveTry_write_ok_fresh_create_fail (oracle : AgentOracle)
    (i : Nat) (st : PipelineState) (plan : LessonPlan) (body : String)
    (s : String)
    (hplan : oracle.runLessonPlanner i = .ok plan)
    (hwrite : oracle.runLessonWriter i = .ok body)
    (hact : oracle.runActivityCreator i = .error s) :
    objectiveTry oracle none i st
      = { st with
          trace := st.trace ++
            [.agentCall (.planLesson i),
             .evt (.lesson_planned i (some plan.lesson_title) false),
             .agentCall (.writeLesson i),
             .commitStatus st.course.status,
             .evt (.lesson_written i false),
             .agentCall (.createActivity i),
             .evt (.generation_error (Int.ofNat i) (objectiveErrorMsg i))],
          db_lessons := st.db_lessons ++ [freshLesson i body],
          committed_status := st.course.status } := by
  simp [objectiveTry, hplan, hwrite, hact, pushEvent, pushItem,
    commitSession, freshLesson]

/-- Iteration reduction: no existing row, write call succeeds, create call
succeeds. -/
theorem objectiveTry_write_ok_fresh_create_ok (oracle : AgentOracle)
    (i : Nat) (st : PipelineState) (plan : LessonPlan) (body : String)
    (spec : String)
    (hplan : oracle.runLessonPlanner i = .ok plan)
    (hwrite : oracle.runLessonWriter i = .ok body)
    (hact : oracle.runActivityCreator i = .ok spec) :
    objectiveTry oracle none i st
      = { st with
          trace := st.trace ++
            [.agentCall (.planLesson i),
             .evt (.lesson_planned i (some plan.lesson_title) false),
             .agentCall (.writeLesson i),
             .commitStatus st.course.status,
             .evt (.lesson_written i false),
             .agentCall (.createActivity i),
             .commitStatus st.course.status,
             .evt (.activity_created i st.nextActivityId false)],
          db_lessons := updateLessonAt (st.db_lessons ++ [freshLesson i body]) i
            (fun l => { l with activities := l.activities ++
              [{ id := st.nextActivityId, activity_spec := some spec }] }),
          committed_status := st.course.status,
          nextActivityId := st.nextActivityId + 1,
          lessons_created := st.lessons_created + 1 } := by
  simp [objectiveTry, hplan, hwrite, hact, pushEvent, pushItem,
    commitSession, freshLesson]

/-- Iteration reduction: the already-done skip of `objectiveStep`. -/
theorem objectiveStep_skip (oracle : AgentOracle) (exl : List Lesson) (i : Nat)
    (st : PipelineState) (ex : Lesson) (a : Activity) (rest : List Activity)
    (hlk : lookupLesson exl i = some ex)
    (hcontent : pyTruthyStr ex.lesson_content = true)
    (hacts : ex.activities = a :: rest) :
    objectiveStep oracle exl i st
      = { st with
          trace := st.trace ++
            [.evt (.lesson_planned i none true),
             .evt (.lesson_written i true),
             .evt (.activity_created i a.id true)],
          lessons_created := st.lessons_created + 1 } := by
  simp [objectiveStep, hlk, hcontent, hacts, pushEvent, pushItem]

/-- Dispatch: an existing row that is not already done goes to the inner
try. -/
theorem objectiveStep_of_not_done (oracle : AgentOracle) (exl : List Lesson)
    (i : Nat) (st : PipelineState) (ex : Lesson)
    (hlk : lookupLesson exl i = some ex)
    (hnd : (pyTruthyStr ex.lesson_content && !ex.activities.isEmpty) = false) :
    objectiveStep oracle exl i st = objectiveTry oracle (some ex) i st := by
  simp [objectiveStep, hlk, hnd]

/-- Dispatch: no existing row goes to the inner try. -/
theorem objectiveStep_of_none (oracle : AgentOracle) (exl : List Lesson)
    (i : Nat) (st : PipelineState)
    (hlk : lookupLesson exl i = none) :
    objectiveStep oracle exl i st = objectiveTry oracle none i st := by
  simp [objectiveStep, hlk]

/-- Updating one lesson row does not change the size of the lesson table. -/
theorem length_updateLessonAt (lessons : List Lesson) (i : Nat)
    (f : Lesson → Lesson) :
    (updateLessonAt lessons i f).length = lessons.length := by
  simp [updateLessonAt]

/-- A content-preserving row update keeps every content column non-null. -/
theorem contentAll_updateLessonAt (lessons : List Lesson) (i : Nat)
    (f : Lesson → Lesson)
    (hf : ∀ l, l.lesson_content.isSome = true →
      (f l).lesson_content.isSome = true)
    (h : ∀ l ∈ lessons, l.lesson_content.isSome = true) :
    ∀ l ∈ updateLessonAt lessons i f, l.lesson_content.isSome = true := by
  intro l hl
  simp only [updateLessonAt, List.mem_map] at hl
  obtain ⟨l0, hl0, rfl⟩ := hl
  cases hc : l0.objective_index == i
  · simpa [hc] using h l0 hl0
  · simpa [hc] using hf l0 (h l0 hl0)

/-- A successful lookup means the lesson table the index was built from is
non-empty. -/
theorem lookupLesson_some_ne_nil (exl : List Lesson) (i : Nat) (ex : Lesson)
    (h : lookupLesson exl i = some ex) : exl ≠ [] := by
  intro hnil
  rw [hnil] at h
  simp [lookupLesson] at h

/-- Master per-iteration specification of the pipeline loop body: the
iteration appends a non-empty batch of trace items all scoped to its own
objective index, leaves the loaded course row alone, commits only the
current course status, never shrinks the lesson table, preserves content
non-nullness, counts exactly the successes, broadcasts the generic error
event (and nothing derived from the internal exception) on failure, and
strictly grows the lesson table on a success for a fresh index. -/
theorem objectiveStep_spec (oracle : AgentOracle) (exl : List Lesson) (i : Nat)
    (st : PipelineState) :
    ∃ new : List TraceItem,
      (objectiveStep oracle exl i st).trace = st.trace ++ new ∧
      (∀ e ∈ traceEvents new, eventIndex e = some (Int.ofNat i)) ∧
      traceEvents new ≠ [] ∧
      (∀ cc ∈ traceCalls new, callIndex cc = i) ∧
      (objectiveStep oracle exl i st).course = st.course ∧
      ((objectiveStep oracle exl i st).committed_status = st.committed_status ∨
        (objectiveStep oracle exl i st).committed_status = st.course.status) ∧
      st.db_lessons.length ≤ (objectiveStep oracle exl i st).db_lessons.length ∧
      ((∀ l ∈ st.db_lessons, l.lesson_content.isSome = true) →
        ∀ l ∈ (objectiveStep oracle exl i st).db_lessons,
          l.lesson_content.isSome = true) ∧
      (objectiveStep oracle exl i st).lessons_created
        = st.lessons_created
          + (if objectiveSucceeds oracle exl i then 1 else 0) ∧
      (objectiveSucceeds oracle exl i = false →
        TraceItem.evt (.generation_error (Int.ofNat i) (objectiveErrorMsg i))
          ∈ new) ∧
      (objectiveSucceeds oracle exl i = true → lookupLesson exl i = none →
        st.db_lessons.length
          < (objectiveStep oracle exl i st).db_lessons.length) := by
  cases hlk : lookupLesson exl i with
  | none =>
    rw [objectiveStep_of_none oracle exl i st hlk]
    cases hplan : oracle.runLessonPlanner i with
    | error s =>
      rw [objectiveTry_plan_fail oracle none i st s hplan]
      refine ⟨_, rfl, ?_, ?_, ?_, rfl, Or.inl rfl, le_refl _, fun h => h,
        ?_, ?_, ?_⟩
      · simp [traceEvents, eventIndex]
      · simp [traceEvents]
      · simp [traceCalls, callIndex]
      · simp [objectiveSucceeds, hlk, tryOk, exceptOk, hplan]
      · intro _; simp
      · intro hs _
        simp [objectiveSucceeds, hlk, tryOk, exceptOk, hplan] at hs
    | ok plan =>
      cases hwrite : oracle.runLessonWriter i with
      | error s =>
        rw [objectiveTry_write_fail_fresh oracle i st plan s hplan hwrite]
        refine ⟨_, rfl, ?_, ?_, ?_, rfl, Or.inl rfl, le_refl _, fun h => h,
          ?_, ?_, ?_⟩
        · simp [traceEvents, eventIndex]
        · simp [traceEvents]
        · simp [traceCalls, callIndex]
        · simp [objectiveSucceeds, hlk, tryOk, exceptOk, hplan, hwrite]
        · intro _; simp
        · intro hs _
          simp [objectiveSucceeds, hlk, tryOk, exceptOk, hplan, hwrite] at hs
      | ok body =>
        cases hact : oracle.runActivityCreator i with
        | error s =>
          rw [objectiveTry_write_ok_fresh_create_fail oracle i st plan body s
            hplan hwrite hact]
          refine ⟨_, rfl, ?_, ?_, ?_, rfl, Or.inr rfl, ?_, ?_, ?_, ?_, ?_⟩
          · simp [traceEvents, eventIndex]
          · simp [traceEvents]
          · simp [traceCalls, callIndex]
          · simp
          · intro h l hl
            rcases List.mem_append.mp hl with h1 | h1
            · exact h l h1
            · simp only [List.mem_singleton] at h1
              subst h1
              simp [freshLesson]
          · simp [objectiveSucceeds, hlk, tryOk, exceptOk, hplan, hwrite, hact]
          · intro _; simp
          · intro hs _
            simp [objectiveSucceeds, hlk, tryOk, exceptOk, hplan, hwrite,
              hact] at hs
        | ok spec =>
          rw [objectiveTry_write_ok_fresh_create_ok oracle i st plan body spec
            hplan hwrite hact]
          refine ⟨_, rfl, ?_, ?_, ?_, rfl, Or.inr rfl, ?_, ?_, ?_, ?_, ?_⟩
          · simp [traceEvents, eventIndex]
          · simp [traceEvents]
          · simp [traceCalls, callIndex]
          · simp [length_updateLessonAt]
          · intro h
            refine contentAll_updateLessonAt _ _ _ (fun l hc => hc) ?_
            intro l hl
            rcases List.mem_append.mp hl with h1 | h1
            · exact h l h1
            · simp only [List.mem_singleton] at h1
              subst h1
              simp [freshLesson]
          · simp [objectiveSucceeds, hlk, tryOk, exceptOk, hplan, hwrite, hact]
          · intro hs
            simp [objectiveSucceeds, hlk, tryOk, exceptOk, hplan, hwrite,
              hact] at hs
          · intro _ _
            simp [length_updateLessonAt]
  | some ex =>
    cases hskip : (pyTruthyStr ex.lesson_content && !ex.activities.isEmpty) with
    | true =>
      rw [Bool.and_eq_true] at hskip
      obtain ⟨htr, hne⟩ := hskip
      cases hacts : ex.activities with
      | nil => rw [hacts] at hne; simp at hne
      | cons a rest =>
        rw [objectiveStep_skip oracle exl i st ex a rest hlk htr hacts]
        refine ⟨_, rfl, ?_, ?_, ?_, rfl, Or.inl rfl, le_refl _, fun h => h,
          ?_, ?_, ?_⟩
        · simp [traceEvents, eventIndex]
        · simp [traceEvents]
        · simp [traceCalls]
        · simp [objectiveSucceeds, hlk, htr, hacts]
        · intro hs
          simp [objectiveSucceeds, hlk, htr, hacts] at hs
        · intro _ h
          simp at h
    | false =>
      rw [objectiveStep_of_not_done oracle exl i st ex hlk hskip]
      cases hplan : oracle.runLessonPlanner i with
      | error s =>
        rw [objectiveTry_plan_fail oracle (some ex) i st s hplan]
        refine ⟨_, rfl, ?_, ?_, ?_, rfl, Or.inl rfl, le_refl _, fun h => h,
          ?_, ?_, ?_⟩
        · simp [traceEvents, eventIndex]
        · simp [traceEvents]
        · simp [traceCalls, callIndex]
        · simp [objectiveSucceeds, hlk, hskip, tryOk, exceptOk, hplan]
        · intro _; simp
        · intro _ h
          simp at h
      | ok plan =>
        cases hcontent : pyTruthyStr ex.lesson_content with
        | true =>
          have hacts : ex.activities = [] := by
            cases hae : ex.activities with
            | nil => rfl
            | cons a rest =>
              rw [hcontent, hae] at hskip
              simp at hskip
          cases hact : oracle.runActivityCreator i with
          | error s =>
            rw [objectiveTry_content_skip_create_fail oracle i st ex plan s
              hplan hcontent hacts hact]
            refine ⟨_, rfl, ?_, ?_, ?_, rfl, Or.inl rfl, le_refl _,
              fun h => h, ?_, ?_, ?_⟩
            · simp [traceEvents, eventIndex]
            · simp [traceEvents]
            · simp [traceCalls, callIndex]
            · simp [objectiveSucceeds, hlk, hskip, tryOk, exceptOk, hplan,
                hcontent, hacts, hact]
            · intro _; simp
            · intro _ h
              simp at h
          | ok spec =>
            rw [objectiveTry_content_skip_create_ok oracle i st ex plan spec
              hplan hcontent hacts hact]
            refine ⟨_, rfl, ?_, ?_, ?_, rfl, Or.inr rfl, ?_, ?_, ?_, ?_, ?_⟩
            · simp [traceEvents, eventIndex]
            · simp [traceEvents]
            · simp [traceCalls, callIndex]
            · simp [length_updateLessonAt]
            · intro h
              exact contentAll_updateLessonAt _ _ _ (fun l hc => hc) h
            · simp [objectiveSucceeds, hlk, hskip, tryOk, exceptOk, hplan,
                hcontent, hacts, hact]
            · intro hs
              simp [objectiveSucceeds, hlk, hskip, tryOk, exceptOk, hplan,
                hcontent, hacts, hact] at hs
            · intro _ h
              simp at h
        | false =>
          cases hwrite : oracle.runLessonWriter i with
          | error s =>
            rw [objectiveTry_write_fail_existing oracle i st ex plan s hplan
              hcontent hwrite]
            refine ⟨_, rfl, ?_, ?_, ?_, rfl, Or.inl rfl, le_refl _,
              fun h => h, ?_, ?_, ?_⟩
            · simp [traceEvents, eventIndex]
            · simp [traceEvents]
            · simp [traceCalls, callIndex]
            · simp [objectiveSucceeds, hlk, hskip, tryOk, exceptOk, hplan,
                hcontent, hwrite]
            · intro _; simp
            · intro _ h
              simp at h
          | ok body =>
            cases hacts : ex.activities with
            | cons a rest =>
              rw [objectiveTry_write_ok_existing_have_activity oracle i st ex
                plan body a rest hplan hcontent hwrite hacts]
              refine ⟨_, rfl, ?_, ?_, ?_, rfl, Or.inr rfl, ?_, ?_, ?_, ?_, ?_⟩
              · simp [traceEvents, eventIndex]
              · simp [traceEvents]
              · simp [traceCalls, callIndex]
              · simp [length_updateLessonAt]
              · intro h
                refine contentAll_updateLessonAt _ _ _ ?_ h
                intro l _
                simp
              · simp [objectiveSucceeds, hlk, hskip, tryOk, exceptOk, hplan,
                  hcontent, hwrite, hacts]
              · intro hs
                simp [objectiveSucceeds, hlk, hskip, tryOk, exceptOk, hplan,
                  hcontent, hwrite, hacts] at hs
              · intro _ h
                simp at h
            | nil =>
              cases hact : oracle.runActivityCreator i with
              | error s =>
                rw [objectiveTry_write_ok_existing_create_fail oracle i st ex
                  plan body s hplan hcontent hwrite hacts hact]
                refine ⟨_, rfl, ?_, ?_, ?_, rfl, Or.inr rfl, ?_, ?_, ?_, ?_,
                  ?_⟩
                · simp [traceEvents, eventIndex]
                · simp [traceEvents]
                · simp [traceCalls, callIndex]
                · simp [length_updateLessonAt]
                · intro h
                  refine contentAll_updateLessonAt _ _ _ ?_ h
                  intro l _
                  simp
                · simp [objectiveSucceeds, hlk, hskip, tryOk, exceptOk, hplan,
                    hcontent, hwrite, hacts, hact]
                · intro _; simp
                · intro _ h
                  simp at h
              | ok spec =>
                rw [objectiveTry_write_ok_existing_create_ok oracle i st ex
                  plan body spec hplan hcontent hwrite hacts hact]
                refine ⟨_, rfl, ?_, ?_, ?_, rfl, Or.inr rfl, ?_, ?_, ?_, ?_,
                  ?_⟩
                · simp [traceEvents, eventIndex]
                · simp [traceEvents]
                · simp [traceCalls, callIndex]
                · simp [length_updateLessonAt]
                · intro h
                  refine contentAll_updateLessonAt _ _ _ (fun l hc => hc) ?_
                  refine contentAll_updateLessonAt _ _ _ ?_ h
                  intro l _
                  simp
                · simp [objectiveSucceeds, hlk, hskip, tryOk, exceptOk, hplan,
                    hcontent, hwrite, hacts, hact]
                · intro hs
                  simp [objectiveSucceeds, hlk, hskip, tryOk, exceptOk, hplan,
                    hcontent, hwrite, hacts, hact] at hs
                · intro _ h
                  simp at h

/-- filterMap distributes over append (event projection). -/
theorem traceEvents_append (a b : List TraceItem) :
    traceEvents (a ++ b) = traceEvents a ++ traceEvents b := by
  simp [traceEvents]

/-- filterMap distributes over append (call projection). -/
theorem traceCalls_append (a b : List TraceItem) :
    traceCalls (a ++ b) = traceCalls a ++ traceCalls b := by
  simp [traceCalls]

/-- The loop over no indices is the identity. -/
theorem runLoop_nil (oracle : AgentOracle) (exl : List Lesson)
    (st : PipelineState) : runLoop oracle exl [] st = st := rfl

/-- The loop peels its first index. -/
theorem runLoop_cons (oracle : AgentOracle) (exl : List Lesson) (i : Nat)
    (S : List Nat) (st : PipelineState) :
    runLoop oracle exl (i :: S) st
      = runLoop oracle exl S (objectiveStep oracle exl i st) := rfl

/-- Fold-level specification of the per-objective loop: the loaded course
row is untouched, a session whose commits are up to date stays up to date,
the lesson table never shrinks and keeps content non-null, the success
counter counts exactly the successful indices, the trace only grows and
every appended event and call is scoped to some processed index, every
failed index has its generic error event in the trace, every processed
index has at least one event in the trace, and the lesson table is
non-empty as soon as one processed index succeeded. -/
theorem loop_spec (oracle : AgentOracle) (exl : List Lesson) (S : List Nat) :
    ∀ st : PipelineState,
      (runLoop oracle exl S st).course = st.course ∧
      (st.committed_status = st.course.status →
        (runLoop oracle exl S st).committed_status
          = (runLoop oracle exl S st).course.status) ∧
      st.db_lessons.length ≤ (runLoop oracle exl S st).db_lessons.length ∧
      ((∀ l ∈ st.db_lessons, l.lesson_content.isSome = true) →
        ∀ l ∈ (runLoop oracle exl S st).db_lessons,
          l.lesson_content.isSome = true) ∧
      (runLoop oracle exl S st).lessons_created
        = st.lessons_created
          + S.countP (fun j => objectiveSucceeds oracle exl j) ∧
      (∃ tail, (runLoop oracle exl S st).trace = st.trace ++ tail ∧
        (∀ e ∈ traceEvents tail, ∃ j ∈ S, eventIndex e = some (Int.ofNat j)) ∧
        (∀ cc ∈ traceCalls tail, ∃ j ∈ S, callIndex cc = j)) ∧
      (∀ j ∈ S, objectiveSucceeds oracle exl j = false →
        TraceItem.evt (.generation_error (Int.ofNat j) (objectiveErrorMsg j))
          ∈ (runLoop oracle exl S st).trace) ∧
      (∀ j ∈ S, ∃ e ∈ traceEvents (runLoop oracle exl S st).trace,
        eventIndex e = some (Int.ofNat j)) ∧
      (exl.length ≤ st.db_lessons.length →
        (∃ j ∈ S, objectiveSucceeds oracle exl j = true) →
        (runLoop oracle exl S st).db_lessons ≠ []) := by
  induction S with
  | nil =>
    intro st
    refine ⟨rfl, fun h => h, le_refl _, fun h => h, by simp [runLoop],
      ⟨[], by simp [runLoop], by simp [traceEvents], by simp [traceCalls]⟩,
      by simp, by simp, ?_⟩
    rintro _ ⟨j, hj, _⟩
    simp at hj
  | cons i S ih =>
    intro st
    obtain ⟨new, htr, hevloc, hevne, hcloc, hcourse, hcomm, hlen, hcont,
      hcount, herr, hgrow⟩ := objectiveStep_spec oracle exl i st
    obtain ⟨iCourse, iComm, iLen, iCont, iCount, ⟨tail, iTr, iEvloc, iCloc⟩,
      iErr, iIdx, iNe⟩ := ih (objectiveStep oracle exl i st)
    rw [runLoop_cons]
    refine ⟨iCourse.trans hcourse, ?_, le_trans hlen iLen,
      fun h => iCont (hcont h), ?_, ?_, ?_, ?_, ?_⟩
    · intro h
      refine iComm ?_
      rcases hcomm with h1 | h1
      · rw [h1, h, ← hcourse]
      · rw [h1, ← hcourse]
    · rw [iCount, hcount, List.countP_cons]
      cases objectiveSucceeds oracle exl i <;> simp <;> omega
    · refine ⟨new ++ tail, ?_, ?_, ?_⟩
      · rw [iTr, htr, List.append_assoc]
      · intro e he
        rw [traceEvents_append] at he
        rcases List.mem_append.mp he with h1 | h1
        · exact ⟨i, List.mem_cons_self i S, hevloc e h1⟩
        · obtain ⟨j, hj, hje⟩ := iEvloc e h1
          exact ⟨j, List.mem_cons_of_mem i hj, hje⟩
      · intro cc hc
        rw [traceCalls_append] at hc
        rcases List.mem_append.mp hc with h1 | h1
        · exact ⟨i, List.mem_cons_self i S, hcloc cc h1⟩
        · obtain ⟨j, hj, hjc⟩ := iCloc cc h1
          exact ⟨j, List.mem_cons_of_mem i hj, hjc⟩
    · intro j hj hfail
      rcases List.mem_cons.mp hj with rfl | hj2
      · rw [iTr]
        refine List.mem_append.mpr (Or.inl ?_)
        rw [htr]
        exact List.mem_append.mpr (Or.inr (herr hfail))
      · exact iErr j hj2 hfail
    · intro j hj
      rcases List.mem_cons.mp hj with rfl | hj2
      · obtain ⟨e, he⟩ := List.exists_mem_of_ne_nil _ hevne
        refine ⟨e, ?_, hevloc e he⟩
        rw [iTr, traceEvents_append]
        refine List.mem_append.mpr (Or.inl ?_)
        rw [htr, traceEvents_append]
        exact List.mem_append.mpr (Or.inr he)
      · exact iIdx j hj2
    · intro hle hex
      obtain ⟨j, hj, hsucc⟩ := hex
      rcases List.mem_cons.mp hj with rfl | hj2
      · cases hlk : lookupLesson exl j with
        | none =>
          have h1 := hgrow hsucc hlk
          have h2 : 0 < (runLoop oracle exl S
              (objectiveStep oracle exl j st)).db_lessons.length := by
            omega
          exact List.ne_nil_of_length_pos h2
        | some ex =>
          have h1 : 0 < exl.length :=
            List.length_pos.mpr (lookupLesson_some_ne_nil exl j ex hlk)
          have h2 : 0 < (runLoop oracle exl S
              (objectiveStep oracle exl j st)).db_lessons.length := by
            omega
          exact List.ne_nil_of_length_pos h2
      · exact iNe (le_trans hle hlen) ⟨j, hj2, hsucc⟩

/-- Ordered insertion adds one row. -/
theorem length_insertLesson (l : Lesson) (xs : List Lesson) :
    (insertLesson l xs).length = xs.length + 1 := by
  induction xs with
  | nil => rfl
  | cons x xs ih =>
    unfold insertLesson
    split
    · rfl
    · simp [ih]

/-- Ordered insertion adds no rows beyond the inserted one. -/
theorem mem_insertLesson (a l : Lesson) (xs : List Lesson)
    (h : a ∈ insertLesson l xs) : a = l ∨ a ∈ xs := by
  induction xs with
  | nil => simpa [insertLesson] using h
  | cons x xs ih =>
    unfold insertLesson at h
    split at h
    · rcases List.mem_cons.mp h with h1 | h1
      · exact Or.inl h1
      · exact Or.inr h1
    · rcases List.mem_cons.mp h with h1 | h1
      · exact Or.inr (by simp [h1])
      · rcases ih h1 with h2 | h2
        · exact Or.inl h2
        · exact Or.inr (List.mem_cons_of_mem _ h2)

/-- The relationship reload keeps the table size. -/
theorem length_sortLessons (xs : List Lesson) :
    (sortLessons xs).length = xs.length := by
  induction xs with
  | nil => rfl
  | cons x xs ih => simp [sortLessons, length_insertLesson, ih]

/-- The relationship reload returns rows of the table. -/
theorem mem_sortLessons (a : Lesson) (xs : List Lesson)
    (h : a ∈ sortLessons xs) : a ∈ xs := by
  induction xs with
  | nil => simpa [sortLessons] using h
  | cons x xs ih =>
    rw [sortLessons] at h
    rcases mem_insertLesson a x (sortLessons xs) h with h1 | h1
    · simp [h1]
    · exact List.mem_cons_of_mem _ (ih h1)

/-- The guard named all_content_generated, unfolded. -/
theorem check_guard_all_content (course : CourseInstance) :
    check_guard course "all_content_generated"
      = (decide (0 < course.lessons.length) &&
          course.lessons.all (fun lesson => lesson.lesson_content.isSome)) :=
  rfl

/-- The guard named always, unfolded. -/
theorem check_guard_always (course : CourseInstance) :
    check_guard course "always" = true := rfl

/-- The edge generating → active carries the guard
all_content_generated. -/
theorem TRANSITIONS_get_generating_active :
    TRANSITIONS_get ("generating", "active")
      = some "all_content_generated" := rfl

/-- The edge active → in_progress carries the guard always. -/
theorem TRANSITIONS_get_active_in_progress :
    TRANSITIONS_get ("active", "in_progress") = some "always" := rfl

/-- A generating course whose guard holds moves to active. -/
theorem transition_generating_active_ok (course : CourseInstance)
    (hst : course.status = "generating")
    (hguard : check_guard course "all_content_generated" = true) :
    transition_course course "active"
      = .ok { course with status := "active" } := by
  simp [transition_course, hst, TRANSITIONS_get_generating_active, hguard]

/-- An active course always moves to in_progress. -/
theorem transition_active_in_progress_ok (course : CourseInstance)
    (hst : course.status = "active") :
    transition_course course "in_progress"
      = .ok { course with status := "in_progress" } := by
  simp [transition_course, hst, TRANSITIONS_get_active_in_progress,
    check_guard_always]

/-- There is no edge into generation_failed: the transition raises for a
generating course. -/
theorem transition_generating_to_failed (course : CourseInstance)
    (h : course.status = "generating") :
    transition_course course "generation_failed"
      = .error (.noEdge "generating" "generation_failed") := by
  unfold transition_course
  rw [h]
  rfl

/-- Finalization with at least one success, a non-empty lesson table and
all content non-null succeeds and leaves the course in_progress. -/
theorem finalizeCourse_ok (description : String) (st : PipelineState)
    (hst : st.course.status = "generating")
    (hpos : 0 < st.lessons_created)
    (hne : st.db_lessons ≠ [])
    (hcontent : ∀ l ∈ st.db_lessons, l.lesson_content.isSome = true) :
    finalizeCourse description st
      = .ok { st with course :=
          { st.course with
            generated_description := some description,
            lessons := sortLessons st.db_lessons,
            status := "in_progress" } } := by
  have hguard : check_guard
      { st.course with
        generated_description := some description,
        lessons := sortLessons st.db_lessons } "all_content_generated"
      = true := by
    rw [check_guard_all_content]
    rw [Bool.and_eq_true]
    constructor
    · simp only [length_sortLessons]
      simpa using List.length_pos.mpr hne
    · rw [List.all_eq_true]
      intro l hl
      exact hcontent l (mem_sortLessons l _ (by simpa using hl))
  have htc := transition_generating_active_ok
    { st.course with
      generated_description := some description,
      lessons := sortLessons st.db_lessons } hst hguard
  simp only [finalizeCourse]
  rw [if_pos hpos]
  rw [htc]
  rfl

/-- Finalization never alters the trace, the success counter or the lesson
table. -/
theorem finalizeCourse_inv (description : String) (st st2 : PipelineState)
    (h : finalizeCourse description st = .ok st2) :
    st2.trace = st.trace ∧ st2.lessons_created = st.lessons_created ∧
    st2.db_lessons = st.db_lessons := by
  simp only [finalizeCourse] at h
  split at h
  · split at h
    · cases h
    · split at h
      · cases h
      · cases h
        exact ⟨rfl, rfl, rfl⟩
  · split at h
    · cases h
    · cases h
      exact ⟨rfl, rfl, rfl⟩

/-- The run with a loadable course row, written through the named loop and
finalization. -/
theorem generate_course_background_some (oracle : AgentOracle)
    (course_id : String) (objectives : List String) (description : String)
    (c : CourseInstance) (firstActivityId : Nat) :
    generate_course_background oracle course_id objectives description
        (some c) firstActivityId
      = (match finalizeCourse description
            (runLoop oracle c.lessons (List.range objectives.length)
              (initState c firstActivityId)) with
        | .ok st2 =>
          { trace := (st2.trace ++ [.commitStatus st2.course.status])
              ++ [.evt (.generation_complete course_id st2.lessons_created)],
            db_lessons := st2.db_lessons,
            committed_status := some st2.course.status,
            lessons_created := st2.lessons_created }
        | .error _ =>
          fatalHandler course_id
            (some { c with
              status := (runLoop oracle c.lessons
                (List.range objectives.length)
                (initState c firstActivityId)).committed_status,
              lessons := (runLoop oracle c.lessons
                (List.range objectives.length)
                (initState c firstActivityId)).db_lessons })
            (runLoop oracle c.lessons (List.range objectives.length)
              (initState c firstActivityId)).trace
            (runLoop oracle c.lessons (List.range objectives.length)
              (initState c firstActivityId)).db_lessons
            (some (runLoop oracle c.lessons (List.range objectives.length)
              (initState c firstActivityId)).committed_status)
            (runLoop oracle c.lessons (List.range objectives.length)
              (initState c firstActivityId)).lessons_created) := by
  unfold generate_course_background runLoop initState
  rfl

/-- An event broadcast in a trace appears in its event projection. -/
theorem evt_mem_traceEvents (e : GenEvent) (t : List TraceItem)
    (h : TraceItem.evt e ∈ t) : e ∈ traceEvents t := by
  rw [traceEvents, List.mem_filterMap]
  exact ⟨.evt e, h, rfl⟩

/-- The fatal handler on a still-generating committed course: the
rollback transition is rejected (no edge into generation_failed) and
swallowed, so only the error and complete events are appended and nothing
is committed. -/
theorem fatalHandler_generating (course_id : String) (c : CourseInstance)
    (trace : List TraceItem) (db : List Lesson) (committed : Option String)
    (n : Nat) (hc : c.status = "generating") :
    fatalHandler course_id (some c) trace db committed n
      = { trace := trace ++
            [.evt (.generation_error (-1) "Fatal generation error"),
             .evt (.generation_complete course_id n)],
          db_lessons := db, committed_status := committed,
          lessons_created := n } := by
  simp only [fatalHandler]
  rw [transition_generating_to_failed c hc, hc]
  simp

/-- C3: when an external plan, write or create-activity call raises for
objective i, the pipeline publishes the generic error event for i (a
function of the index only, independent of the internal exception text by
universality over the oracle), still processes every objective, finishes
with the complete event as the last event reporting exactly the number of
successful objectives, and when at least one objective succeeded commits
the course as in_progress (through active), not generation_failed. The
hypotheses are the states the program can reach: the course was committed
as generating by the trigger endpoint, and every lesson row the program
ever persists has non-null content. -/
theorem pipeline_isolates_objective_failure (oracle : AgentOracle)
    (course_id description : String) (objectives : List String)
    (c : CourseInstance) (firstActivityId : Nat)
    (hst : c.status = "generating")
    (hcontent : ∀ l ∈ c.lessons, l.lesson_content.isSome = true)
    (i : Nat) (hi : i < objectives.length)
    (hfail : objectiveSucceeds oracle c.lessons i = false) :
    GenEvent.generation_error (Int.ofNat i) (objectiveErrorMsg i)
      ∈ traceEvents (generate_course_background oracle course_id objectives
          description (some c) firstActivityId).trace ∧
    (∀ j, j < objectives.length →
      ∃ e ∈ traceEvents (generate_course_background oracle course_id
          objectives description (some c) firstActivityId).trace,
        eventIndex e = some (Int.ofNat j)) ∧
    (traceEvents (generate_course_background oracle course_id objectives
        description (some c) firstActivityId).trace).getLast?
      = some (.generation_complete course_id
          ((List.range objectives.length).countP
            (fun j => objectiveSucceeds oracle c.lessons j))) ∧
    ((∃ j, j < objectives.length ∧
        objectiveSucceeds oracle c.lessons j = true) →
      (generate_course_background oracle course_id objectives description
          (some c) firstActivityId).committed_status = some "in_progress" ∧
      (generate_course_background oracle course_id objectives description
          (some c) firstActivityId).committed_status
        ≠ some "generation_failed") := by
  obtain ⟨lCourse, lComm, lLen, lCont, lCount, ⟨tail, lTr, lEv, lCl⟩, lErr,
    lIdx, lNe⟩ := loop_spec oracle c.lessons (List.range objectives.length)
      (initState c firstActivityId)
  rw [generate_course_background_some]
  set st1 := runLoop oracle c.lessons (List.range objectives.length)
    (initState c firstActivityId) with hst1def
  have hCourse : st1.course = c := lCourse
  have hCount : st1.lessons_created = (List.range objectives.length).countP
      (fun j => objectiveSucceeds oracle c.lessons j) := by
    rw [lCount]
    simp [initState]
  have hCommitted : st1.committed_status = "generating" := by
    have h1 := lComm (by simp [initState])
    rw [h1, hCourse]
    exact hst
  have hContentDb : ∀ l ∈ st1.db_lessons, l.lesson_content.isSome = true :=
    lCont (by simpa [initState] using hcontent)
  have hErrMem : TraceItem.evt
      (.generation_error (Int.ofNat i) (objectiveErrorMsg i)) ∈ st1.trace :=
    lErr i (List.mem_range.mpr hi) hfail
  have hIdxAll : ∀ j, j < objectives.length →
      ∃ e ∈ traceEvents st1.trace, eventIndex e = some (Int.ofNat j) :=
    fun j hj => lIdx j (List.mem_range.mpr hj)
  have hOkCase : (∃ j, j < objectives.length ∧
      objectiveSucceeds oracle c.lessons j = true) →
      finalizeCourse description st1
        = .ok { st1 with course :=
            { st1.course with
              generated_description := some description,
              lessons := sortLessons st1.db_lessons,
              status := "in_progress" } } := by
    rintro ⟨j, hj, hsucc⟩
    refine finalizeCourse_ok description st1 (by rw [hCourse]; exact hst)
      ?_ ?_ hContentDb
    · rw [hCount]
      rw [List.countP_pos_iff]
      exact ⟨j, List.mem_range.mpr hj, hsucc⟩
    · exact lNe (by simp [initState]) ⟨j, List.mem_range.mpr hj, hsucc⟩
  cases hfin : finalizeCourse description st1 with
  | ok st2 =>
    obtain ⟨hTr2, hCn2, _⟩ := finalizeCourse_inv description st1 st2 hfin
    refine ⟨?_, ?_, ?_, ?_⟩
    · rw [traceEvents_append, traceEvents_append]
      refine List.mem_append.mpr (Or.inl (List.mem_append.mpr (Or.inl ?_)))
      rw [hTr2]
      exact evt_mem_traceEvents _ _ hErrMem
    · intro j hj
      obtain ⟨e, he, hei⟩ := hIdxAll j hj
      refine ⟨e, ?_, hei⟩
      rw [traceEvents_append, traceEvents_append]
      refine List.mem_append.mpr (Or.inl (List.mem_append.mpr (Or.inl ?_)))
      rw [hTr2]
      exact he
    · rw [traceEvents_append]
      have h2 : traceEvents
          [TraceItem.evt (.generation_complete course_id
            st2.lessons_created)]
          = [GenEvent.generation_complete course_id st2.lessons_created] :=
        rfl
      rw [h2, List.getLast?_concat]
      rw [hCn2, hCount]
    · intro hex
      have h1 := (hfin.symm.trans (hOkCase hex))
      have h2 := Except.ok.inj h1
      constructor
      · rw [h2]
      · rw [h2]
        simp
  | error e =>
    have hfh := fatalHandler_generating course_id
      { c with status := st1.committed_status, lessons := st1.db_lessons }
      st1.trace st1.db_lessons (some st1.committed_status)
      st1.lessons_created (by simpa using hCommitted)
    rw [hfh]
    refine ⟨?_, ?_, ?_, ?_⟩
    · rw [traceEvents_append]
      exact List.mem_append.mpr (Or.inl (evt_mem_traceEvents _ _ hErrMem))
    · intro j hj
      obtain ⟨e2, he, hei⟩ := hIdxAll j hj
      refine ⟨e2, ?_, hei⟩
      rw [traceEvents_append]
      exact List.mem_append.mpr (Or.inl he)
    · rw [traceEvents_append]
      have h2 : traceEvents
          [TraceItem.evt (.generation_error (-1) "Fatal generation error"),
           TraceItem.evt (.generation_complete course_id
             st1.lessons_created)]
          = [GenEvent.generation_error (-1) "Fatal generation error",
             GenEvent.generation_complete course_id st1.lessons_created] :=
        rfl
      rw [h2]
      rw [show traceEvents st1.trace ++
          [GenEvent.generation_error (-1) "Fatal generation error",
           GenEvent.generation_complete course_id st1.lessons_created]
        = (traceEvents st1.trace ++
            [GenEvent.generation_error (-1) "Fatal generation error"]) ++
          [GenEvent.generation_complete course_id st1.lessons_created] by
        rw [List.append_assoc]
        rfl]
      rw [List.getLast?_concat, hCount]
    · intro hex
      have h1 := (hOkCase hex)
      rw [hfin] at h1
      cases h1

/-- Index filtering distributes over appended traces (events). -/
theorem eventsForIndex_append (a b : List TraceItem) (i : Nat) :
    eventsForIndex (a ++ b) i = eventsForIndex a i ++ eventsForIndex b i := by
  unfold eventsForIndex
  rw [traceEvents_append, List.filter_append]

/-- Index filtering distributes over appended traces (calls). -/
theorem callsForIndex_append (a b : List TraceItem) (i : Nat) :
    callsForIndex (a ++ b) i = callsForIndex a i ++ callsForIndex b i := by
  unfold callsForIndex
  rw [traceCalls_append, List.filter_append]

/-- A commit marker carries no event or call for any index. -/
theorem forIndex_commit (t : List TraceItem) (s : String) (i : Nat) :
    eventsForIndex (t ++ [.commitStatus s]) i = eventsForIndex t i ∧
    callsForIndex (t ++ [.commitStatus s]) i = callsForIndex t i := by
  rw [eventsForIndex_append, callsForIndex_append]
  exact ⟨by simp [eventsForIndex, traceEvents],
    by simp [callsForIndex, traceCalls]⟩

/-- The complete event is scoped to no objective index. -/
theorem forIndex_complete (t : List TraceItem) (course_id : String)
    (n : Nat) (i : Nat) :
    eventsForIndex (t ++ [.evt (.generation_complete course_id n)]) i
      = eventsForIndex t i ∧
    callsForIndex (t ++ [.evt (.generation_complete course_id n)]) i
      = callsForIndex t i := by
  rw [eventsForIndex_append, callsForIndex_append]
  refine ⟨?_, by simp [callsForIndex, traceCalls]⟩
  have h1 : eventsForIndex [TraceItem.evt
      (.generation_complete course_id n)] i = [] := by
    simp [eventsForIndex, traceEvents, eventIndex]
  rw [h1, List.append_nil]

/-- The fatal error and complete pair is scoped to no Nat objective
index. -/
theorem forIndex_fatal_tail (t : List TraceItem) (course_id : String)
    (n : Nat) (i : Nat) :
    eventsForIndex (t ++
        [.evt (.generation_error (-1) "Fatal generation error"),
         .evt (.generation_complete course_id n)]) i
      = eventsForIndex t i ∧
    callsForIndex (t ++
        [.evt (.generation_error (-1) "Fatal generation error"),
         .evt (.generation_complete course_id n)]) i
      = callsForIndex t i := by
  rw [eventsForIndex_append, callsForIndex_append]
  refine ⟨?_, by simp [callsForIndex, traceCalls]⟩
  have h1 : eventsForIndex
      [TraceItem.evt (.generation_error (-1) "Fatal generation error"),
       TraceItem.evt (.generation_complete course_id n)] i = [] := by
    unfold eventsForIndex
    rw [List.filter_eq_nil_iff]
    intro e he
    simp only [traceEvents, List.filterMap_cons, List.filterMap_nil] at he
    rcases List.mem_cons.mp he with rfl | he2
    · rw [eventIndex]
      intro hcon
      rw [beq_iff_eq, Option.some.injEq] at hcon
      simp at hcon
    · rcases List.mem_singleton.mp he2 with rfl
      rw [eventIndex]
      simp
  rw [h1, List.append_nil]

/-- The fatal handler appends nothing scoped to a real objective index. -/
theorem fatalHandler_forIndex (course_id : String)
    (committedCourse : Option CourseInstance) (trace : List TraceItem)
    (db : List Lesson) (committed : Option String) (n : Nat) (i : Nat) :
    eventsForIndex (fatalHandler course_id committedCourse trace db
        committed n).trace i = eventsForIndex trace i ∧
    callsForIndex (fatalHandler course_id committedCourse trace db
        committed n).trace i = callsForIndex trace i := by
  simp only [fatalHandler]
  cases committedCourse with
  | none => exact forIndex_fatal_tail trace course_id n i
  | some c =>
    cases hc : c.status == "generating" with
    | false =>
      simp only [hc, Bool.false_eq_true, if_false]
      exact forIndex_fatal_tail trace course_id n i
    | true =>
      simp only [hc, if_true]
      cases htc : transition_course c "generation_failed" with
      | error e => exact forIndex_fatal_tail trace course_id n i
      | ok c2 =>
        refine ⟨?_, ?_⟩
        · exact ((forIndex_fatal_tail (trace ++ [.commitStatus c2.status])
            course_id n i).1).trans ((forIndex_commit trace c2.status i).1)
        · exact ((forIndex_fatal_tail (trace ++ [.commitStatus c2.status])
            course_id n i).2).trans ((forIndex_commit trace c2.status i).2)

/-- The loop over appended index lists composes. -/
theorem runLoop_append (oracle : AgentOracle) (exl : List Lesson)
    (S T : List Nat) (st : PipelineState) :
    runLoop oracle exl (S ++ T) st
      = runLoop oracle exl T (runLoop oracle exl S st) := by
  simp [runLoop, List.foldl_append]

/-- A step for a different index leaves the events and calls of index i
alone. -/
theorem objectiveStep_forIndex_ne (oracle : AgentOracle) (exl : List Lesson)
    (m : Nat) (st : PipelineState) (i : Nat) (hmi : m ≠ i) :
    eventsForIndex (objectiveStep oracle exl m st).trace i
      = eventsForIndex st.trace i ∧
    callsForIndex (objectiveStep oracle exl m st).trace i
      = callsForIndex st.trace i := by
  obtain ⟨new, htr, hevloc, -, hcloc, -, -, -, -, -, -, -⟩ :=
    objectiveStep_spec oracle exl m st
  constructor
  · rw [htr, eventsForIndex_append]
    have hnil : eventsForIndex new i = [] := by
      unfold eventsForIndex
      rw [List.filter_eq_nil_iff]
      intro e he
      rw [hevloc e he]
      simp [hmi]
    rw [hnil, List.append_nil]
  · rw [htr, callsForIndex_append]
    have hnil : callsForIndex new i = [] := by
      unfold callsForIndex
      rw [List.filter_eq_nil_iff]
      intro cc hc
      rw [hcloc cc hc]
      simp [hmi]
    rw [hnil, List.append_nil]

/-- The loop over indices avoiding i leaves index-i events and calls
alone. -/
theorem runLoop_forIndex_notmem (oracle : AgentOracle) (exl : List Lesson)
    (S : List Nat) (i : Nat) : ∀ st : PipelineState, i ∉ S →
    eventsForIndex (runLoop oracle exl S st).trace i
      = eventsForIndex st.trace i ∧
    callsForIndex (runLoop oracle exl S st).trace i
      = callsForIndex st.trace i := by
  induction S with
  | nil => exact fun st _ => ⟨rfl, rfl⟩
  | cons m S ih =>
    intro st hni
    have hmi : m ≠ i := fun h => hni (h ▸ List.mem_cons_self m S)
    have hniS : i ∉ S := fun h => hni (List.mem_cons_of_mem m h)
    obtain ⟨h1, h2⟩ := objectiveStep_forIndex_ne oracle exl m st i hmi
    obtain ⟨h3, h4⟩ := ih (objectiveStep oracle exl m st) hniS
    rw [runLoop_cons]
    exact ⟨h3.trans h1, h4.trans h2⟩

/-- For i < n, the index-i events and calls of the whole loop are exactly
those produced by iteration i. -/
theorem runLoop_range_forIndex (oracle : AgentOracle) (exl : List Lesson)
    (i : Nat) : ∀ n : Nat, i < n → ∀ st0 : PipelineState,
    eventsForIndex (runLoop oracle exl (List.range n) st0).trace i
      = eventsForIndex (objectiveStep oracle exl i
          (runLoop oracle exl (List.range i) st0)).trace i ∧
    callsForIndex (runLoop oracle exl (List.range n) st0).trace i
      = callsForIndex (objectiveStep oracle exl i
          (runLoop oracle exl (List.range i) st0)).trace i := by
  intro n
  induction n with
  | zero => intro h; cases h
  | succ m ih =>
    intro hi st0
    rw [List.range_succ, runLoop_append]
    rcases Nat.lt_succ_iff_lt_or_eq.mp hi with h1 | h1
    · obtain ⟨he, hc⟩ := objectiveStep_forIndex_ne oracle exl m
        (runLoop oracle exl (List.range m) st0) i (Nat.ne_of_gt h1)
      obtain ⟨ihe, ihc⟩ := ih h1 st0
      rw [show runLoop oracle exl [m]
          (runLoop oracle exl (List.range m) st0)
          = objectiveStep oracle exl m
            (runLoop oracle exl (List.range m) st0) from rfl]
      exact ⟨he.trans ihe, hc.trans ihc⟩
    · subst h1
      rw [show runLoop oracle exl [i]
          (runLoop oracle exl (List.range i) st0)
          = objectiveStep oracle exl i
            (runLoop oracle exl (List.range i) st0) from rfl]
      exact ⟨rfl, rfl⟩

/-- The index-i events and calls of a whole pipeline run are those of
iteration i of its loop. -/
theorem generate_forIndex (oracle : AgentOracle) (course_id : String)
    (objectives : List String) (description : String) (c : CourseInstance)
    (firstActivityId : Nat) (i : Nat) (hi : i < objectives.length) :
    eventsForIndex (generate_course_background oracle course_id objectives
        description (some c) firstActivityId).trace i
      = eventsForIndex (objectiveStep oracle c.lessons i
          (runLoop oracle c.lessons (List.range i)
            (initState c firstActivityId))).trace i ∧
    callsForIndex (generate_course_background oracle course_id objectives
        description (some c) firstActivityId).trace i
      = callsForIndex (objectiveStep oracle c.lessons i
          (runLoop oracle c.lessons (List.range i)
            (initState c firstActivityId))).trace i := by
  rw [generate_course_background_some]
  obtain ⟨hre, hrc⟩ := runLoop_range_forIndex oracle c.lessons i
    objectives.length hi (initState c firstActivityId)
  cases hfin : finalizeCourse description
      (runLoop oracle c.lessons (List.range objectives.length)
        (initState c firstActivityId)) with
  | ok st2 =>
    obtain ⟨hTr2, -, -⟩ := finalizeCourse_inv description _ st2 hfin
    have hstep3e : eventsForIndex st2.trace i
        = eventsForIndex (runLoop oracle c.lessons
          (List.range objectives.length)
          (initState c firstActivityId)).trace i := by
      rw [hTr2]
    have hstep3c : callsForIndex st2.trace i
        = callsForIndex (runLoop oracle c.lessons
          (List.range objectives.length)
          (initState c firstActivityId)).trace i := by
      rw [hTr2]
    constructor
    · exact ((forIndex_complete (st2.trace ++ [.commitStatus
        st2.course.status]) course_id st2.lessons_created i).1).trans
        (((forIndex_commit st2.trace st2.course.status i).1).trans
          (hstep3e.trans hre))
    · exact ((forIndex_complete (st2.trace ++ [.commitStatus
        st2.course.status]) course_id st2.lessons_created i).2).trans
        (((forIndex_commit st2.trace st2.course.status i).2).trans
          (hstep3c.trans hrc))
  | error e =>
    obtain ⟨h1, h2⟩ := fatalHandler_forIndex course_id _
      (runLoop oracle c.lessons (List.range objectives.length)
        (initState c firstActivityId)).trace _ _ _ i
    exact ⟨h1.trans hre, h2.trans hrc⟩

/-- C4 amended: on a re-run, an objective index whose Lesson already has
truthy (non-null and non-empty) content and at least one Activity produces
exactly the three progress events for that index marked skipped, performs
no external call for it and counts it as a success; an index with no
existing Lesson performs the three external calls in order and publishes
the real planned, written and activity_created events. -/
theorem pipeline_resumption_spec (oracle : AgentOracle)
    (course_id description : String) (objectives : List String)
    (c : CourseInstance) (firstActivityId : Nat) (i : Nat)
    (hi : i < objectives.length) :
    (∀ ex a rest, lookupLesson c.lessons i = some ex →
      pyTruthyStr ex.lesson_content = true → ex.activities = a :: rest →
      eventsForIndex (generate_course_background oracle course_id objectives
          description (some c) firstActivityId).trace i
        = [.lesson_planned i none true, .lesson_written i true,
           .activity_created i a.id true] ∧
      callsForIndex (generate_course_background oracle course_id objectives
          description (some c) firstActivityId).trace i = [] ∧
      objectiveSucceeds oracle c.lessons i = true) ∧
    (∀ plan body spec, lookupLesson c.lessons i = none →
      oracle.runLessonPlanner i = .ok plan →
      oracle.runLessonWriter i = .ok body →
      oracle.runActivityCreator i = .ok spec →
      callsForIndex (generate_course_background oracle course_id objectives
          description (some c) firstActivityId).trace i
        = [.planLesson i, .writeLesson i, .createActivity i] ∧
      (∃ aid, eventsForIndex (generate_course_background oracle course_id
          objectives description (some c) firstActivityId).trace i
        = [.lesson_planned i (some plan.lesson_title) false,
           .lesson_written i false, .activity_created i aid false]) ∧
      objectiveSucceeds oracle c.lessons i = true) := by
  obtain ⟨hge, hgc⟩ := generate_forIndex oracle course_id objectives
    description c firstActivityId i hi
  obtain ⟨hpe, hpc⟩ := runLoop_forIndex_notmem oracle c.lessons
    (List.range i) i (initState c firstActivityId) (by simp)
  have hpre0 : eventsForIndex (runLoop oracle c.lessons (List.range i)
      (initState c firstActivityId)).trace i = [] :=
    hpe.trans rfl
  have hprc0 : callsForIndex (runLoop oracle c.lessons (List.range i)
      (initState c firstActivityId)).trace i = [] :=
    hpc.trans rfl
  constructor
  · intro ex a rest hlk htr hacts
    have hstepE : eventsForIndex (objectiveStep oracle c.lessons i
        (runLoop oracle c.lessons (List.range i)
          (initState c firstActivityId))).trace i
        = [GenEvent.lesson_planned i none true,
           GenEvent.lesson_written i true,
           GenEvent.activity_created i a.id true] := by
      rw [objectiveStep_skip oracle c.lessons i _ ex a rest hlk htr hacts]
      refine (eventsForIndex_append _ _ i).trans ?_
      rw [hpre0]
      simp [eventsForIndex, traceEvents, eventIndex]
    have hstepC : callsForIndex (objectiveStep oracle c.lessons i
        (runLoop oracle c.lessons (List.range i)
          (initState c firstActivityId))).trace i = [] := by
      rw [objectiveStep_skip oracle c.lessons i _ ex a rest hlk htr hacts]
      refine (callsForIndex_append _ _ i).trans ?_
      rw [hprc0]
      simp [callsForIndex, traceCalls]
    refine ⟨hge.trans hstepE, hgc.trans hstepC, ?_⟩
    simp [objectiveSucceeds, hlk, htr, hacts]
  · intro plan body spec hlk hplan hwrite hact
    have hred : objectiveStep oracle c.lessons i
        (runLoop oracle c.lessons (List.range i)
          (initState c firstActivityId))
        = objectiveTry oracle none i
          (runLoop oracle c.lessons (List.range i)
            (initState c firstActivityId)) :=
      objectiveStep_of_none oracle c.lessons i _ hlk
    have hstepC : callsForIndex (objectiveStep oracle c.lessons i
        (runLoop oracle c.lessons (List.range i)
          (initState c firstActivityId))).trace i
        = [AgentCall.planLesson i, AgentCall.writeLesson i,
           AgentCall.createActivity i] := by
      rw [hred, objectiveTry_write_ok_fresh_create_ok oracle i _ plan body
        spec hplan hwrite hact]
      refine (callsForIndex_append _ _ i).trans ?_
      rw [hprc0]
      simp [callsForIndex, traceCalls, callIndex]
    have hstepE : eventsForIndex (objectiveStep oracle c.lessons i
        (runLoop oracle c.lessons (List.range i)
          (initState c firstActivityId))).trace i
        = [GenEvent.lesson_planned i (some plan.lesson_title) false,
           GenEvent.lesson_written i false,
           GenEvent.activity_created i (runLoop oracle c.lessons
             (List.range i) (initState c firstActivityId)).nextActivityId
             false] := by
      rw [hred, objectiveTry_write_ok_fresh_create_ok oracle i _ plan body
        spec hplan hwrite hact]
      refine (eventsForIndex_append _ _ i).trans ?_
      rw [hpre0]
      simp [eventsForIndex, traceEvents, eventIndex]
    refine ⟨hgc.trans hstepC,
      ⟨(runLoop oracle c.lessons (List.range i)
          (initState c firstActivityId)).nextActivityId,
        hge.trans hstepE⟩, ?_⟩
    simp [objectiveSucceeds, hlk, tryOk, exceptOk, hplan, hwrite, hact]

/-- C1: the lifecycle table has no edge into or out of generation_failed.
The transition the pipeline performs when zero objectives succeed and the
transition the retry endpoint performs are both rejected with
InvalidTransitionError, and a zero-success background run therefore leaves
the course committed as generating (the complete event still reports 0),
not generation_failed as the claim and the callers of the table require. -/
theorem generation_failed_edges_missing :
    TRANSITIONS_get ("generating", "generation_failed") = none ∧
    TRANSITIONS_get ("generation_failed", "generating") = none ∧
    transition_course courseGen0 "generation_failed"
      = .error (.noEdge "generating" "generation_failed") ∧
    (generate_course_background oracleAllFail "c1" ["obj A"] "desc"
        (some courseGen0) 0).committed_status = some "generating" ∧
    (traceEvents (generate_course_background oracleAllFail "c1" ["obj A"]
        "desc" (some courseGen0) 0).trace).getLast?
      = some (.generation_complete "c1" 0) :=
  ⟨rfl, rfl, rfl, rfl, rfl⟩

/-- C2 counterexample: a generating course with no lessons (the committed
state right after generation is triggered) vacuously has non-null content
on every Lesson, yet the transition to active is rejected: the guard also
requires at least one Lesson. -/
theorem active_transition_rejected_empty_course :
    courseGen0.status = "generating" ∧
    (courseGen0.lessons.all (fun l => l.lesson_content.isSome)) = true ∧
    transition_course courseGen0 "active"
      = .error (.guardFailed "all_content_generated" "generating"
          "active") :=
  ⟨rfl, rfl, rfl⟩

/-- C2 amended: for a generating course, the transition to active succeeds
iff at least one Lesson exists and every Lesson has non-null content;
otherwise it fails with InvalidTransitionError carrying the guard name
(the source mutates the status only after the guard passes, so the course
row is unchanged on failure). -/
theorem transition_generating_active_iff (course : CourseInstance)
    (h : course.status = "generating") :
    (transition_course course "active"
        = .ok { course with status := "active" }
      ↔ course.lessons ≠ [] ∧
        ∀ l ∈ course.lessons, l.lesson_content.isSome = true) ∧
    (¬ (course.lessons ≠ [] ∧
        ∀ l ∈ course.lessons, l.lesson_content.isSome = true) →
      transition_course course "active"
        = .error (.guardFailed "all_content_generated" "generating"
            "active")) := by
  have hred : transition_course course "active"
      = if check_guard course "all_content_generated"
        then .ok { course with status := "active" }
        else .error (.guardFailed "all_content_generated" "generating"
          "active") := by
    unfold transition_course
    rw [h, TRANSITIONS_get_generating_active]
  have hiff : check_guard course "all_content_generated" = true ↔
      (course.lessons ≠ [] ∧
        ∀ l ∈ course.lessons, l.lesson_content.isSome = true) := by
    rw [check_guard_all_content, Bool.and_eq_true]
    constructor
    · rintro ⟨h1, h2⟩
      exact ⟨List.ne_nil_of_length_pos (by simpa using h1),
        fun l hl => List.all_eq_true.mp h2 l hl⟩
    · rintro ⟨h1, h2⟩
      exact ⟨by simpa using List.length_pos.mpr h1,
        List.all_eq_true.mpr (fun l hl => h2 l hl)⟩
  constructor
  · rw [hred]
    constructor
    · intro hok
      by_cases hg : check_guard course "all_content_generated" = true
      · exact hiff.mp hg
      · rw [if_neg (by simpa using hg)] at hok
        cases hok
    · intro hcond
      rw [if_pos (by simpa using hiff.mpr hcond)]
  · intro hcond
    rw [hred, if_neg (fun hg => hcond (hiff.mp (by simpa using hg)))]

/-- C2 witness: the amended characterization at a generating course with
one written lesson. -/
theorem transition_generating_active_iff_witness :
    transition_course courseOneLessonDone "active"
      = .ok { courseOneLessonDone with status := "active" } :=
  (transition_generating_active_iff courseOneLessonDone rfl).1.mpr
    ⟨by decide, by decide⟩

/-- C3 witness: the isolation theorem at a concrete run whose write call
fails for objective 0 of 2; objective 1 succeeds, so the run commits the
course as in_progress. -/
theorem pipeline_isolates_objective_failure_witness :
    GenEvent.generation_error (Int.ofNat 0) (objectiveErrorMsg 0)
      ∈ traceEvents (generate_course_background oracleWriteFails0 "c1"
          ["obj A", "obj B"] "desc" (some courseGen0) 100).trace ∧
    (generate_course_background oracleWriteFails0 "c1" ["obj A", "obj B"]
        "desc" (some courseGen0) 100).committed_status
      = some "in_progress" :=
  ⟨(pipeline_isolates_objective_failure oracleWriteFails0 "c1" "desc"
      ["obj A", "obj B"] courseGen0 100 rfl (by simp [courseGen0]) 0
      (by decide) (by decide)).1,
    ((pipeline_isolates_objective_failure oracleWriteFails0 "c1" "desc"
      ["obj A", "obj B"] courseGen0 100 rfl (by simp [courseGen0]) 0
      (by decide) (by decide)).2.2.2 ⟨1, by decide, by decide⟩).1⟩

/-- C4 counterexample: a Lesson whose content is non-null but the empty
string has, as the claim puts it, non-null content and an Activity, yet it
defeats the already-done check (Python truthiness of the text column): the
plan call is performed for its index and the planned event is published
unskipped. -/
theorem resumption_skip_needs_truthy_content :
    lessonEmptyContent.lesson_content = some "" ∧
    lessonEmptyContent.activities ≠ [] ∧
    AgentCall.planLesson 0 ∈ traceCalls (generate_course_background
        oracleAllOk "c1" ["obj A"] "desc" (some courseEmptyContent)
        100).trace ∧
    GenEvent.lesson_planned 0 (some (planOk 0).lesson_title) false
      ∈ traceEvents (generate_course_background oracleAllOk "c1" ["obj A"]
          "desc" (some courseEmptyContent) 100).trace := by
  refine ⟨rfl, by decide, by decide, by decide⟩

/-- C4 witness: a concrete re-run with objective 0 fully done and
objective 1 untouched: index 0 yields the three skipped events and no
call, index 1 performs all three calls. -/
theorem pipeline_resumption_spec_witness :
    eventsForIndex (generate_course_background oracleAllOk "c1"
        ["obj A", "obj B"] "desc" (some courseRerun) 100).trace 0
      = [.lesson_planned 0 none true, .lesson_written 0 true,
         .activity_created 0 7 true] ∧
    callsForIndex (generate_course_background oracleAllOk "c1"
        ["obj A", "obj B"] "desc" (some courseRerun) 100).trace 0 = [] ∧
    callsForIndex (generate_course_background oracleAllOk "c1"
        ["obj A", "obj B"] "desc" (some courseRerun) 100).trace 1
      = [.planLesson 1, .writeLesson 1, .createActivity 1] :=
  ⟨((pipeline_resumption_spec oracleAllOk "c1" "desc" ["obj A", "obj B"]
      courseRerun 100 0 (by decide)).1 lessonDoneWithActivity
      { id := 7, activity_spec := some "spec" } [] rfl rfl rfl).1,
    ((pipeline_resumption_spec oracleAllOk "c1" "desc" ["obj A", "obj B"]
      courseRerun 100 0 (by decide)).1 lessonDoneWithActivity
      { id := 7, activity_spec := some "spec" } [] rfl rfl rfl).2.1,
    ((pipeline_resumption_spec oracleAllOk "c1" "desc" ["obj A", "obj B"]
      courseRerun 100 1 (by decide)).2 (planOk 1) ("body " ++ toString 1)
      ("spec " ++ toString 1) rfl rfl rfl rfl).1⟩

/-- C5: with nothing tracked for the key, a first start succeeds; a second
start before the first task completes raises the already-running error;
after the task finishes and its done callback removed the entry, the key
reports not running and a third start succeeds. -/
theorem tracker_singleton_lifecycle (tasks : TaskMap) (key : String)
    (id1 id2 id3 : Nat) (h : tasks key = none) :
    ∃ tasks1 t1, start_generation tasks key id1 = .ok (tasks1, t1) ∧
      start_generation tasks1 key id2
        = .error ("Generation already running for course " ++ key) ∧
      is_running (cleanup (finishTask tasks1 key) key) key = false ∧
      ∃ tasks3 t3, start_generation (cleanup (finishTask tasks1 key) key)
        key id3 = .ok (tasks3, t3) := by
  refine ⟨fun k => if k == key then some ⟨id1, false⟩ else tasks k,
    ⟨id1, false⟩, ?_, ?_, ?_,
    fun k => if k == key
      then some ⟨id3, false⟩
      else cleanup (finishTask (fun k2 =>
        if k2 == key then some ⟨id1, false⟩ else tasks k2) key) key k,
    ⟨id3, false⟩, ?_⟩
  · simp [start_generation, h]
  · simp [start_generation]
  · simp [is_running, cleanup]
  · simp [start_generation, cleanup]

/-- C5 witness: the lifecycle at an empty registry. -/
theorem tracker_singleton_lifecycle_witness :
    ∃ tasks1 t1,
      start_generation (fun _ => none) "c1" 1 = .ok (tasks1, t1) ∧
      start_generation tasks1 "c1" 2
        = .error ("Generation already running for course " ++ "c1") ∧
      is_running (cleanup (finishTask tasks1 "c1") "c1") "c1" = false ∧
      ∃ tasks3 t3, start_generation (cleanup (finishTask tasks1 "c1")
        "c1") "c1" 3 = .ok (tasks3, t3) :=
  tracker_singleton_lifecycle (fun _ => none) "c1" 1 2 3 rfl

/-- C6 helper: the fatal handler trace always ends with the error and
complete events, in that order. -/
theorem fatalHandler_shape (course_id : String)
    (committedCourse : Option CourseInstance) (trace : List TraceItem)
    (db : List Lesson) (committed : Option String) (n : Nat) :
    ∃ pre,
      (fatalHandler course_id committedCourse trace db committed n).trace
        = (pre ++ [TraceItem.evt (.generation_error (-1)
            "Fatal generation error")])
          ++ [TraceItem.evt (.generation_complete course_id n)] := by
  simp only [fatalHandler]
  cases committedCourse with
  | none => exact ⟨trace, by simp⟩
  | some c =>
    cases hc : c.status == "generating" with
    | false => exact ⟨trace, by simp [hc]⟩
    | true =>
      cases htc : transition_course c "generation_failed" with
      | error e => exact ⟨trace, by simp [hc, htc]⟩
      | ok c2 =>
        exact ⟨trace ++ [.commitStatus c2.status], by simp [hc, htc]⟩

/-- C6 amended: every run, fatal runs included, publishes the complete
event carrying the final success count, and it is the last item of the
trace; in a run whose finalization succeeds it directly follows the
session-exit commit of the finalizing transition (whose status is exactly
the committed result), while in a fatal run it follows the fatal error
event and can be published without any finalizing transition having been
committed. -/
theorem generation_complete_always_last (oracle : AgentOracle)
    (course_id : String) (objectives : List String) (description : String)
    (loadedCourse : Option CourseInstance) (firstActivityId : Nat) :
    ∃ pre,
      (generate_course_background oracle course_id objectives description
          loadedCourse firstActivityId).trace
        = pre ++ [TraceItem.evt (.generation_complete course_id
            (generate_course_background oracle course_id objectives
              description loadedCourse firstActivityId).lessons_created)] ∧
      ((∃ pre2 s, pre = pre2 ++ [TraceItem.commitStatus s] ∧
          (generate_course_background oracle course_id objectives
            description loadedCourse firstActivityId).committed_status
            = some s) ∨
        ∃ pre2, pre = pre2 ++ [TraceItem.evt
          (.generation_error (-1) "Fatal generation error")]) := by
  cases loadedCourse with
  | none =>
    obtain ⟨pre, hpre⟩ := fatalHandler_shape course_id none [] [] none 0
    exact ⟨pre ++ [TraceItem.evt (.generation_error (-1)
      "Fatal generation error")], hpre, Or.inr ⟨pre, rfl⟩⟩
  | some c =>
    rw [generate_course_background_some]
    cases hfin : finalizeCourse description
        (runLoop oracle c.lessons (List.range objectives.length)
          (initState c firstActivityId)) with
    | ok st2 =>
      exact ⟨st2.trace ++ [TraceItem.commitStatus st2.course.status], rfl,
        Or.inl ⟨st2.trace, st2.course.status, rfl, rfl⟩⟩
    | error e =>
      obtain ⟨pre, hpre⟩ := fatalHandler_shape course_id _
        (runLoop oracle c.lessons (List.range objectives.length)
          (initState c firstActivityId)).trace
        (runLoop oracle c.lessons (List.range objectives.length)
          (initState c firstActivityId)).db_lessons
        (some (runLoop oracle c.lessons (List.range objectives.length)
          (initState c firstActivityId)).committed_status)
        (runLoop oracle c.lessons (List.range objectives.length)
          (initState c firstActivityId)).lessons_created
      exact ⟨pre ++ [TraceItem.evt (.generation_error (-1)
        "Fatal generation error")], hpre, Or.inr ⟨pre, rfl⟩⟩

/-- C6 counterexample: a fatal run (the course row cannot be loaded)
publishes the complete event with no commit of any finalizing transition:
the trace holds no commit item at all and no status was ever committed, so
the complete event is not published only after a committed transition. -/
theorem complete_published_without_commit :
    (generate_course_background oracleAllOk "c1" ["obj A"] "desc" none
        0).trace
      = [TraceItem.evt (.generation_error (-1) "Fatal generation error"),
         TraceItem.evt (.generation_complete "c1" 0)] ∧
    ((generate_course_background oracleAllOk "c1" ["obj A"] "desc" none
        0).trace.all (fun item => !isCommitItem item)) = true ∧
    (generate_course_background oracleAllOk "c1" ["obj A"] "desc" none
        0).committed_status = none :=
  ⟨rfl, rfl, rfl⟩

/-- C7: the transition table has no edge for the assessment pipeline: the
endpoint transition into generating_assessment is rejected from both of
its allowed source statuses, the background transition
generating_assessment → assessment_ready is rejected, and the finalization
therefore leaves a generating_assessment course unchanged even after the
assessment row is persisted and committed. -/
theorem assessment_ready_transition_missing :
    TRANSITIONS_get ("awaiting_assessment", "generating_assessment")
      = none ∧
    TRANSITIONS_get ("assessment_ready", "generating_assessment") = none ∧
    TRANSITIONS_get ("generating_assessment", "assessment_ready") = none ∧
    (assessment_finalize courseGeneratingAssessment
        { id := 1, passed := none, status := "pending" }).status
      = "generating_assessment" :=
  ⟨rfl, rfl, rfl, rfl⟩

/-- C8 counterexample: subscribe creates its queue with the asyncio
default maxsize 0, the encoding of an infinite queue, so the subscriber
mailbox is not bounded: even after a thousand queued messages put_nowait
still accepts. -/
theorem subscriber_queue_not_bounded :
    ¬ isBounded (subscribe (fun _ => []) "c1").2 ∧
    put_nowait { maxsize := 0, items := List.replicate 1000 msgA } msgA
      = .ok { maxsize := 0, items := List.replicate 1000 msgA ++ [msgA] }
      := by
  constructor
  · intro h
    simp [isBounded, subscribe] at h
  · rfl

/-- C8 amended: subscribe creates an unbounded mailbox; publish never
blocks the publisher: it serves every subscriber of the key independently,
appending the message to each queue that is not full and leaving a full
queue unchanged (the drop, with only a logged warning), with delivery to
the remaining subscribers unaffected. -/
theorem bus_publish_nonblocking (subs : Subscribers)
    (course_id event_name : String) (data : List (String × String))
    (j : Nat) :
    (subscribe subs course_id).2.maxsize = 0 ∧
    ((broadcast subs course_id event_name data) course_id).length
      = (subs course_id).length ∧
    ((broadcast subs course_id event_name data) course_id)[j]?
      = ((subs course_id)[j]?).map (fun q =>
          if queueFull q then q
          else { q with items := q.items
            ++ [{ event := event_name, data := data }] }) := by
  have hfun : ∀ q : EventQueue,
      (match put_nowait q { event := event_name, data := data } with
       | .ok q2 => q2
       | .error _ => q)
      = if queueFull q then q
        else { q with items := q.items
          ++ [{ event := event_name, data := data }] } := by
    intro q
    cases hq : queueFull q <;> simp [put_nowait, hq]
  refine ⟨rfl, ?_, ?_⟩
  · simp [broadcast]
  · simp [broadcast, hfun]

/-- C9 counterexample: with the job finished and two lesson rows now
persisted, the generation stream timeout branch emits the complete event
with the stale connect-time count (0), not a count accurate to a re-read
(2): it performs no re-read. -/
theorem generation_stream_stale_count :
    generation_stream_on_timeout "c1" [] [lessonRow 0, lessonRow 1] false
      = .generationComplete "c1" 0 ∧
    ([lessonRow 0, lessonRow 1] : List Lesson).length = 2 ∧
    (0 : Nat) ≠ 2 :=
  ⟨rfl, rfl, by decide⟩

/-- C9 helper: the latest-assessment query returns a persisted row. -/
theorem latestAssessment_mem (l : List Assessment) (a : Assessment)
    (h : latestAssessment l = some a) : a ∈ l := by
  induction l with
  | nil => cases h
  | cons x xs ih =>
    rw [latestAssessment] at h
    cases hx : latestAssessment xs with
    | none =>
      simp only [hx] at h
      cases h
      simp
    | some b =>
      simp only [hx] at h
      by_cases hle : b.id ≤ x.id
      · rw [if_pos hle] at h
        cases h
        simp
      · rw [if_neg hle] at h
        cases h
        exact List.mem_cons_of_mem _ (ih hx)

/-- C9 amended: on a bus timeout with the job no longer running, the
assessment stream re-reads the persisted assessments and emits the
terminal event accurate to that re-read (the newest persisted row, or the
ended-without-result error when none exists), while the course generation
stream emits the complete event with the connect-time snapshot count,
without re-reading the persisted lessons; with the job still running both
streams emit a keepalive and continue. -/
theorem stream_timeout_spec (course_id : String)
    (snapshot dbNow : List Lesson) (assessNow : List Assessment) :
    generation_stream_on_timeout course_id snapshot dbNow false
      = .generationComplete course_id snapshot.length ∧
    generation_stream_on_timeout course_id snapshot dbNow true
      = .keepalive ∧
    (∀ a, latestAssessment assessNow = some a →
      assessment_stream_on_timeout assessNow false
        = .assessmentComplete a.id ∧ a ∈ assessNow) ∧
    (latestAssessment assessNow = none →
      assessment_stream_on_timeout assessNow false
        = .assessmentError "Assessment generation ended without result") ∧
    assessment_stream_on_timeout assessNow true = .keepalive := by
  refine ⟨rfl, rfl, ?_, ?_, rfl⟩
  · intro a ha
    refine ⟨?_, latestAssessment_mem assessNow a ha⟩
    simp [assessment_stream_on_timeout, ha]
  · intro ha
    simp [assessment_stream_on_timeout, ha]

/-- C9 witness: the timeout behavior at concrete states. -/
theorem stream_timeout_spec_witness :
    generation_stream_on_timeout "c1" [lessonRow 0] [] false
      = .generationComplete "c1" 1 ∧
    assessment_stream_on_timeout
        [{ id := 3, passed := none, status := "pending" }] false
      = .assessmentComplete 3 :=
  ⟨(stream_timeout_spec "c1" [lessonRow 0] [] []).1,
    ((stream_timeout_spec "c1" [lessonRow 0] []
      [{ id := 3, passed := none, status := "pending" }]).2.2.1
      { id := 3, passed := none, status := "pending" } rfl).1⟩

/-- C10: start raises exactly when the registry maps the key to a live
(not yet done) task; an entry whose task has finished but whose done
callback has not fired yet already reports not running, and a fresh start
succeeds by replacing the stale entry. -/
theorem start_already_running_iff (tasks : TaskMap) (key : String)
    (newId : Nat) :
    ((∃ msg, start_generation tasks key newId = .error msg) ↔
      ∃ t, tasks key = some t ∧ t.done = false) ∧
    (∀ t, tasks key = some t → t.done = true →
      is_running tasks key = false ∧
      ∃ tasks2, start_generation tasks key newId
          = .ok (tasks2, { taskId := newId, done := false }) ∧
        tasks2 key = some { taskId := newId, done := false }) := by
  constructor
  · constructor
    · rintro ⟨msg, hmsg⟩
      by_cases hcond : (match tasks key with
          | some t => !t.done
          | none => false) = true
      · cases htk : tasks key with
        | none =>
          rw [htk] at hcond
          simp at hcond
        | some t =>
          rw [htk] at hcond
          refine ⟨t, rfl, ?_⟩
          simpa using hcond
      · unfold start_generation at hmsg
        rw [if_neg hcond] at hmsg
        simp at hmsg
    · rintro ⟨t, htk, hdone⟩
      refine ⟨"Generation already running for course " ++ key, ?_⟩
      simp [start_generation, htk, hdone]
  · intro t htk hdone
    refine ⟨?_, ?_⟩
    · simp [is_running, htk, hdone]
    · refine ⟨fun k => if k == key then some ⟨newId, false⟩ else tasks k,
        ?_, ?_⟩
      · simp [start_generation, htk, hdone]
      · simp

/-- C10 witness: a registry holding a finished task for the key. -/
theorem start_already_running_iff_witness :
    is_running regDone "c1" = false ∧
    ∃ tasks2, start_generation regDone "c1" 5
        = .ok (tasks2, { taskId := 5, done := false }) ∧
      tasks2 "c1" = some { taskId := 5, done := false } :=
  (start_already_running_iff regDone "c1" 5).2
    { taskId := 7, done := true } rfl rfl

end School
